import Mathlib

/-!
A verification development for the `workflow/leviosam2.py` pipeline
orchestrator of the leviosam2 repository.

The Python module is shallowly embedded: each stage method of
`Leviosam2Workflow` becomes a Lean function from the workflow state, the
per-stage arguments and a filesystem abstraction to an outcome together with
the list of observable effects (filesystem existence checks and process
spawns).  Command strings are built exactly as the Python f-strings build
them.  `pathlib` paths are modelled as plain strings: for an output prefix
with a file-name component, `str(p.parent / (p.name + suffix))` is
`str(p) + suffix`, which is the concatenation used here.
-/

namespace Leviosam2

/-- Python exceptions raised by the workflow code. `nameError` stands for
`NameError`/`UnboundLocalError` (reading a name that is not bound). -/
inductive PyErr : Type where
  | fileNotFound (path : String)
  | valueError (msg : String)
  | nameError (name : String)
  deriving DecidableEq, Repr

/-- Result of calling one stage method: the rendered command (dry-run
return), the literal string `skip`, a spawned process (with the command it
ran), or a raised exception. -/
inductive Outcome : Type where
  | cmd (c : String)
  | skip
  | proc (c : String)
  | raised (e : PyErr)
  deriving DecidableEq, Repr

/-- Observable side effects of a stage: an `is_file` existence check on a
path, or a `subprocess.run` spawn of a shell command. -/
inductive Effect : Type where
  | checkExists (p : String)
  | spawn (c : String)
  deriving DecidableEq, Repr

/-- The filesystem, abstracted as the list of paths that exist as files. -/
abbrev FS := List String

/-! ### Decimal rendering of numbers (Python `str` on `int`) -/

/-- Fuel-driven digit expansion of a natural number, most significant digit
first; the fuel is always given as `n + 1`, which suffices. -/
def natReprAux : Nat → Nat → List Char
  | 0, _ => []
  | fuel + 1, n =>
      if n < 10 then [Nat.digitChar n]
      else natReprAux fuel (n / 10) ++ [Nat.digitChar (n % 10)]

/-- Decimal rendering of a natural number. -/
def natRepr (n : Nat) : String := String.mk (natReprAux (n + 1) n)

/-- Decimal rendering of an integer, as Python `str` renders an `int`. -/
def intRepr (i : Int) : String :=
  if i < 0 then "-" ++ natRepr i.natAbs else natRepr i.natAbs

/-- Rendering of a Python `float` configuration value interpolated into an
f-string.  Float values are modelled as rationals and the rendered text
abstractly as numerator/denominator; no claim below depends on the digits of
the rendered value, only on which characters can occur in it. -/
def pyFloatRepr (q : ℚ) : String := intRepr q.num ++ "/" ++ natRepr q.den

/-! ### Substring occurrence counting -/

/-- Number of occurrences of `pat` as a contiguous sublist of `l`, counted
by starting position (occurrences may overlap). -/
def occCount (pat : List Char) : List Char → Nat
  | [] => 0
  | c :: l => (if pat <+: (c :: l) then 1 else 0) + occCount pat l

/-- Number of occurrences of the string `pat` inside the string `s`. -/
def strOcc (pat s : String) : Nat := occCount pat.data s.data

/-- `1 ≤ strOcc pat s` states that `s` contains `pat` as a substring. -/
def containsSub (pat s : String) : Bool := decide (1 ≤ strOcc pat s)

/-! ### Workflow state

The attributes set by `Leviosam2Workflow.__init__` that the stage methods
read.  `path_out_pfx` is the source's `path_out_prefix` attribute. -/

structure Wf : Type where
  aligner : String
  aligner_binary : String
  sequence_type : String
  path_out_pfx : String
  num_threads : Int
  dryrun : Bool
  forcerun : Bool
  samtools_binary : String
  leviosam2_binary : String
  time_cmd : String
  fn_target_fasta : String
  deriving DecidableEq, Repr

/-- `self.is_single_end = (self.sequence_type not in ['ilmn_pe'])`. -/
def Wf.is_single_end (st : Wf) : Bool := st.sequence_type != "ilmn_pe"

/-! ### Stage methods

Each `run_*` method is a function to `Outcome × List Effect`.  The command
string is assembled exactly as the corresponding f-string does, before the
dry-run dispatch; existence checks and the skip decision mirror the Python
control flow, including `and` short-circuiting. -/

/-- An optional integer lift threshold rendered as `'-S key:v' if v else ''`:
Python truthiness makes both `None` and `0` contribute no flag. -/
def optIntArg (key : String) (v : Option Int) : String :=
  match v with
  | none => ""
  | some x => if x = 0 then "" else "-S " ++ key ++ ":" ++ intRepr x

/-- The `clipped_frac` threshold (`float` in the source, a rational here)
rendered as `'-S clipped_frac:v' if v else ''`. -/
def optFracArg (v : Option ℚ) : String :=
  match v with
  | none => ""
  | some x => if x = 0 then "" else "-S clipped_frac:" ++ pyFloatRepr x

/-- A `'-G v' if v else ''` optional integer argument. -/
def optGapArg (v : Option Int) : String :=
  match v with
  | none => ""
  | some x => if x = 0 then "" else "-G " ++ intRepr x

/-- A `'flag v' if v else ''` optional string argument (empty string is
falsy). -/
def optStrArg (flag : String) (v : String) : String :=
  if v = "" then "" else flag ++ " " ++ v

/-- `<prefix>-committed.bam`, the `lift` stage's output artifact. -/
def fn_out_committed (st : Wf) : String := st.path_out_pfx ++ "-committed.bam"

/-- The `lift` command string built by `run_leviosam2`. -/
def leviosam2_cmd (st : Wf) (clft fn_input : String)
    (lift_commit_min_mapq lift_commit_min_score : Option Int)
    (lift_commit_max_frac_clipped : Option ℚ)
    (lift_commit_max_isize lift_commit_max_hdist lift_max_gap : Option Int)
    (lift_bed_commit_source lift_bed_defer_target lift_realign_config : String) :
    String :=
  st.time_cmd ++ " " ++ st.leviosam2_binary ++ " lift -C " ++ clft ++
    " -a " ++ fn_input ++ " -p " ++ st.path_out_pfx ++
    " -t " ++ intRepr st.num_threads ++ " -m -f " ++ st.fn_target_fasta ++
    " " ++ optIntArg "mapq" lift_commit_min_mapq ++
    " " ++ optIntArg "aln_score" lift_commit_min_score ++
    " " ++ optFracArg lift_commit_max_frac_clipped ++
    " " ++ optIntArg "hdist" lift_commit_max_hdist ++
    " " ++ optIntArg "isize" lift_commit_max_isize ++
    " " ++ optGapArg lift_max_gap ++
    " " ++ optStrArg "-r" lift_bed_commit_source ++
    " " ++ optStrArg "-D" lift_bed_defer_target ++
    " " ++ optStrArg "-x" lift_realign_config

/-- `Leviosam2Workflow.run_leviosam2`. -/
def run_leviosam2 (st : Wf) (clft fn_input : String)
    (lift_commit_min_mapq lift_commit_min_score : Option Int)
    (lift_commit_max_frac_clipped : Option ℚ)
    (lift_commit_max_isize lift_commit_max_hdist lift_max_gap : Option Int)
    (lift_bed_commit_source lift_bed_defer_target lift_realign_config : String)
    (fs : FS) : Outcome × List Effect :=
  let cmd := leviosam2_cmd st clft fn_input lift_commit_min_mapq
    lift_commit_min_score lift_commit_max_frac_clipped lift_commit_max_isize
    lift_commit_max_hdist lift_max_gap lift_bed_commit_source
    lift_bed_defer_target lift_realign_config
  if st.dryrun then (.cmd cmd, [])
  else if fn_input ∉ fs then
    (.raised (.fileNotFound fn_input), [.checkExists fn_input])
  else if !st.forcerun && fn_out_committed st ∈ fs then
    (.skip, [.checkExists fn_input, .checkExists (fn_out_committed st)])
  else if !st.forcerun then
    (.proc cmd, [.checkExists fn_input, .checkExists (fn_out_committed st),
                 .spawn cmd])
  else
    (.proc cmd, [.checkExists fn_input, .spawn cmd])

/-- The `samtools sort` command string built by `run_sort_committed`. -/
def sort_committed_cmd (st : Wf) : String :=
  st.time_cmd ++ " " ++ st.samtools_binary ++ " sort -@ " ++
    intRepr st.num_threads ++ " -o " ++
    (st.path_out_pfx ++ "-committed-sorted.bam") ++ " " ++
    (st.path_out_pfx ++ "-committed.bam")

/-- `Leviosam2Workflow.run_sort_committed`. -/
def run_sort_committed (st : Wf) (fs : FS) : Outcome × List Effect :=
  let fn_in_bam := st.path_out_pfx ++ "-committed.bam"
  let fn_out := st.path_out_pfx ++ "-committed-sorted.bam"
  let cmd := sort_committed_cmd st
  if st.dryrun then (.cmd cmd, [])
  else if fn_in_bam ∉ fs then
    (.raised (.fileNotFound fn_in_bam), [.checkExists fn_in_bam])
  else if !st.forcerun && fn_out ∈ fs then
    (.skip, [.checkExists fn_in_bam, .checkExists fn_out])
  else if !st.forcerun then
    (.proc cmd, [.checkExists fn_in_bam, .checkExists fn_out, .spawn cmd])
  else
    (.proc cmd, [.checkExists fn_in_bam, .spawn cmd])

/-- The first deferred-FASTQ path whose existence `run_collate_pe` tests for
its skip decision: `<prefix>-deferred-R1.fq.gz` (note: no `-paired`). -/
def collate_fn_out_fq1 (st : Wf) : String :=
  st.path_out_pfx ++ "-deferred-R1.fq.gz"

/-- The second deferred-FASTQ path whose existence `run_collate_pe` tests:
`<prefix>-deferred-R2.fq.gz`. -/
def collate_fn_out_fq2 (st : Wf) : String :=
  st.path_out_pfx ++ "-deferred-R2.fq.gz"

/-- The `collate` command string built by `run_collate_pe`. -/
def collate_pe_cmd (st : Wf) : String :=
  st.time_cmd ++ " " ++ st.leviosam2_binary ++ " collate -a " ++
    (st.path_out_pfx ++ "-committed-sorted.bam") ++ " -b " ++
    (st.path_out_pfx ++ "-deferred.bam") ++ " -p " ++
    (st.path_out_pfx ++ "-paired")

/-- `Leviosam2Workflow.run_collate_pe`. -/
def run_collate_pe (st : Wf) (fs : FS) : Outcome × List Effect :=
  let fn_in_committed := st.path_out_pfx ++ "-committed-sorted.bam"
  let fn_in_deferred := st.path_out_pfx ++ "-deferred.bam"
  let cmd := collate_pe_cmd st
  if st.dryrun then (.cmd cmd, [])
  else if fn_in_committed ∉ fs then
    (.raised (.fileNotFound fn_in_committed), [.checkExists fn_in_committed])
  else if fn_in_deferred ∉ fs then
    (.raised (.fileNotFound fn_in_deferred),
     [.checkExists fn_in_committed, .checkExists fn_in_deferred])
  else if !st.forcerun && collate_fn_out_fq1 st ∈ fs &&
      collate_fn_out_fq2 st ∈ fs then
    (.skip, [.checkExists fn_in_committed, .checkExists fn_in_deferred,
             .checkExists (collate_fn_out_fq1 st),
             .checkExists (collate_fn_out_fq2 st)])
  else if !st.forcerun && collate_fn_out_fq1 st ∈ fs then
    (.proc cmd, [.checkExists fn_in_committed, .checkExists fn_in_deferred,
                 .checkExists (collate_fn_out_fq1 st),
                 .checkExists (collate_fn_out_fq2 st), .spawn cmd])
  else if !st.forcerun then
    (.proc cmd, [.checkExists fn_in_committed, .checkExists fn_in_deferred,
                 .checkExists (collate_fn_out_fq1 st), .spawn cmd])
  else
    (.proc cmd, [.checkExists fn_in_committed, .checkExists fn_in_deferred,
                 .spawn cmd])

/-- The paired deferred FASTQ for read 1 that `run_realign_deferred`
requires to exist: `<prefix>-paired-deferred-R1.fq.gz`. -/
def realign_fn_in_fq1 (st : Wf) : String :=
  st.path_out_pfx ++ "-paired-deferred-R1.fq.gz"

/-- The paired deferred FASTQ for read 2 that `run_realign_deferred`
requires to exist: `<prefix>-paired-deferred-R2.fq.gz`. -/
def realign_fn_in_fq2 (st : Wf) : String :=
  st.path_out_pfx ++ "-paired-deferred-R2.fq.gz"

/-- `max(1, self.num_threads // 5)`, the sort thread count computed for the
single-end branch of `run_realign_deferred` (Python `//` is floor
division). -/
def num_threads_sort (st : Wf) : Int := max 1 (Int.fdiv st.num_threads 5)

/-- `max(1, self.num_threads - num_threads_sort)`, the single-end alignment
thread count. -/
def num_threads_aln_se (st : Wf) : Int :=
  max 1 (st.num_threads - num_threads_sort st)

/-- `max(1, self.num_threads - 1)`, the paired-end alignment thread count. -/
def num_threads_aln_pe (st : Wf) : Int := max 1 (st.num_threads - 1)

/-- The alignment thread count `num_threads_aln` used in the realignment
command for the current layout. -/
def num_threads_aln (st : Wf) : Int :=
  if st.is_single_end then num_threads_aln_se st else num_threads_aln_pe st

/-- The downstream `samtools` pipe target of the realignment.  In the
single-end branch the source passes `num_threads_aln` (not
`num_threads_sort`) to `samtools sort -@`. -/
def realign_cmd_samtools (st : Wf) : String :=
  if st.is_single_end then
    st.time_cmd ++ " " ++ st.samtools_binary ++ " sort -@ " ++
      intRepr (num_threads_aln_se st) ++ " -o " ++
      (st.path_out_pfx ++ "-realigned.bam")
  else
    st.time_cmd ++ " " ++ st.samtools_binary ++ " view -hbo " ++
      (st.path_out_pfx ++ "-paired-realigned.bam")

/-- The read arguments of the realignment command.  The source assigns these
from plain (non-f) string literals, so the brace placeholders appear
verbatim in the command instead of the derived FASTQ paths. -/
def realign_reads_bowtie2 (st : Wf) : String :=
  if st.is_single_end then "-U \x7bfn_in_fq\x7d"
  else "-1 \x7bfn_in_fq1\x7d -2 \x7bfn_in_fq2\x7d"

/-- Read placeholders for the bwa/strobealign/minimap2 families (also plain
string literals in the source). -/
def realign_reads_plain (st : Wf) : String :=
  if st.is_single_end then "\x7bfn_in_fq\x7d"
  else "\x7bfn_in_fq1\x7d \x7bfn_in_fq2\x7d"

/-- The minimap2/winnowmap2 preset flag.  The source compares
`self.sequence_type` with `'pb-hifi'` (hyphen), while the CLI value is
`'pb_hifi'` (underscore), so the first branch can never be taken for a value
accepted by `parse_args`. -/
def realign_preset (st : Wf) : String :=
  if st.sequence_type = "pb-hifi" then "-x map-hifi"
  else if st.sequence_type = "ont" then "-x map-ont"
  else ""

/-- The realignment command string built by `run_realign_deferred` for the
given aligner, or `none` when no aligner branch assigns `cmd` (reading `cmd`
then raises `NameError`). -/
def realign_cmd (st : Wf) (target_fasta_index rg_string : String) :
    Option String :=
  if st.aligner = "bowtie2" then
    some (st.time_cmd ++ " " ++ st.aligner_binary ++ " " ++ rg_string ++
      " -p " ++ intRepr (num_threads_aln st) ++ " -x " ++ target_fasta_index ++
      " " ++ realign_reads_bowtie2 st ++ " | " ++ realign_cmd_samtools st)
  else if st.aligner = "bwamem" ∨ st.aligner = "bwamem2" then
    some (st.time_cmd ++ " " ++ st.aligner_binary ++ " mem " ++
      (if rg_string ≠ "" then "-R " ++ rg_string else rg_string) ++
      " -t " ++ intRepr (num_threads_aln st) ++ " " ++ target_fasta_index ++
      " " ++ realign_reads_plain st ++ " | " ++ realign_cmd_samtools st)
  else if st.aligner = "strobealign" then
    some (st.time_cmd ++ " " ++ st.aligner_binary ++ " " ++
      (if rg_string ≠ "" then "--rg " ++ rg_string else rg_string) ++
      " -t " ++ intRepr (num_threads_aln st) ++ " " ++ st.fn_target_fasta ++
      " " ++ realign_reads_plain st ++ " | " ++ realign_cmd_samtools st)
  else if st.aligner = "minimap2" ∨ st.aligner = "winnowmap2" then
    some (st.time_cmd ++ " " ++ st.aligner_binary ++ " " ++
      (if rg_string ≠ "" then "-R " ++ rg_string else rg_string) ++
      " -a " ++ realign_preset st ++ " --MD -t " ++
      intRepr (num_threads_aln st) ++ " " ++ st.fn_target_fasta ++
      " " ++ realign_reads_plain st ++ " | " ++ realign_cmd_samtools st)
  else none

/-- `Leviosam2Workflow.run_realign_deferred`.

Two faithful irregularities: (1) in the paired-end branch, aligners outside
the supported list raise `ValueError` before anything else happens — even in
dry-run mode; (2) in execute mode, lines 429-430 of the source check
`fn_in_fq1`/`fn_in_fq2`, local names that are only assigned in the
paired-end branch, so the single-end branch raises an unbound-name error
there before the skip test or any spawn. -/
def run_realign_deferred (st : Wf) (target_fasta_index rg_string : String)
    (fs : FS) : Outcome × List Effect :=
  if !st.is_single_end &&
      !(st.aligner = "bowtie2" || st.aligner = "bwamem" ||
        st.aligner = "bwamem2" || st.aligner = "strobealign") then
    (.raised (.valueError
      ("We have not supported paired-end mode for aligner " ++ st.aligner)),
     [])
  else
    match realign_cmd st target_fasta_index rg_string with
    | none => (.raised (.nameError "cmd"), [])
    | some cmd =>
      if st.dryrun then (.cmd cmd, [])
      else if st.is_single_end then (.raised (.nameError "fn_in_fq1"), [])
      else
        let fq1 := realign_fn_in_fq1 st
        let fq2 := realign_fn_in_fq2 st
        let fn_out := st.path_out_pfx ++ "-paired-realigned.bam"
        if fq1 ∉ fs then
          (.raised (.fileNotFound fq1), [.checkExists fq1])
        else if fq2 ∉ fs then
          (.raised (.fileNotFound fq2), [.checkExists fq1, .checkExists fq2])
        else if !st.forcerun && fn_out ∈ fs then
          (.skip, [.checkExists fq1, .checkExists fq2, .checkExists fn_out])
        else if !st.forcerun then
          (.proc cmd, [.checkExists fq1, .checkExists fq2,
                       .checkExists fn_out, .spawn cmd])
        else
          (.proc cmd, [.checkExists fq1, .checkExists fq2, .spawn cmd])

/-- The three-part `&&`/pipe command string built by
`run_refflow_merge_pe`. -/
def refflow_merge_pe_cmd (st : Wf) (source_label target_label : String) :
    String :=
  let fn_in_realigned := st.path_out_pfx ++ "-paired-realigned.bam"
  let fn_in_deferred := st.path_out_pfx ++ "-paired-deferred.bam"
  let fn_realigned_sort_n := st.path_out_pfx ++ "--paired-realigned-sorted_n.bam"
  let fn_deferred_sort_n := st.path_out_pfx ++ "--paired-deferred-sorted_n.bam"
  let fn_out := st.path_out_pfx ++ "-paired-deferred-reconciled-sorted.bam"
  st.time_cmd ++ " " ++ st.samtools_binary ++ " sort -@ " ++
    intRepr st.num_threads ++ " -n -o " ++ fn_realigned_sort_n ++ " " ++
    fn_in_realigned ++ " && " ++
  st.time_cmd ++ " " ++ st.samtools_binary ++ " sort -@ " ++
    intRepr st.num_threads ++ " -n -o " ++ fn_deferred_sort_n ++ " " ++
    fn_in_deferred ++ " && " ++
  st.time_cmd ++ " " ++ st.leviosam2_binary ++ " reconcile -s " ++
    source_label ++ ":" ++ fn_deferred_sort_n ++ " -s " ++
    target_label ++ ":" ++ fn_realigned_sort_n ++ " -m -o - | " ++
  st.time_cmd ++ " " ++ st.samtools_binary ++ " sort -@ " ++
    intRepr st.num_threads ++ " -o " ++ fn_out

/-- `Leviosam2Workflow.run_refflow_merge_pe`. -/
def run_refflow_merge_pe (st : Wf) (source_label target_label : String)
    (fs : FS) : Outcome × List Effect :=
  let fn_in_realigned := st.path_out_pfx ++ "-paired-realigned.bam"
  let fn_in_deferred := st.path_out_pfx ++ "-paired-deferred.bam"
  let fn_out := st.path_out_pfx ++ "-paired-deferred-reconciled-sorted.bam"
  let cmd := refflow_merge_pe_cmd st source_label target_label
  if st.dryrun then (.cmd cmd, [])
  else if fn_in_realigned ∉ fs then
    (.raised (.fileNotFound fn_in_realigned), [.checkExists fn_in_realigned])
  else if fn_in_deferred ∉ fs then
    (.raised (.fileNotFound fn_in_deferred),
     [.checkExists fn_in_realigned, .checkExists fn_in_deferred])
  else if !st.forcerun && fn_out ∈ fs then
    (.skip, [.checkExists fn_in_realigned, .checkExists fn_in_deferred,
             .checkExists fn_out])
  else if !st.forcerun then
    (.proc cmd, [.checkExists fn_in_realigned, .checkExists fn_in_deferred,
                 .checkExists fn_out, .spawn cmd])
  else
    (.proc cmd, [.checkExists fn_in_realigned, .checkExists fn_in_deferred,
                 .spawn cmd])

/-- The merge-and-index command string built by `run_merge_and_index`.  The
source's committed-input literal ends with a space (`'-committed-sorted.bam '`),
which is preserved. -/
def merge_and_index_cmd (st : Wf) : String :=
  let fn_in_committed := st.path_out_pfx ++ "-committed-sorted.bam "
  let fn_in_deferred :=
    if st.is_single_end then st.path_out_pfx ++ "-realigned.bam"
    else st.path_out_pfx ++ "-paired-deferred-reconciled-sorted.bam"
  let fn_out := st.path_out_pfx ++ "-final.bam"
  st.time_cmd ++ " " ++ st.samtools_binary ++ " merge -@ " ++
    intRepr st.num_threads ++ " --write-index -o " ++ fn_out ++ " " ++
    fn_in_committed ++ " " ++ fn_in_deferred ++ " && " ++
  st.time_cmd ++ " " ++ st.samtools_binary ++ " index " ++ fn_out

/-- `Leviosam2Workflow.run_merge_and_index`. -/
def run_merge_and_index (st : Wf) (fs : FS) : Outcome × List Effect :=
  let fn_in_committed := st.path_out_pfx ++ "-committed-sorted.bam "
  let fn_in_deferred :=
    if st.is_single_end then st.path_out_pfx ++ "-realigned.bam"
    else st.path_out_pfx ++ "-paired-deferred-reconciled-sorted.bam"
  let fn_out := st.path_out_pfx ++ "-final.bam"
  let cmd := merge_and_index_cmd st
  if st.dryrun then (.cmd cmd, [])
  else if fn_in_committed ∉ fs then
    (.raised (.fileNotFound fn_in_committed), [.checkExists fn_in_committed])
  else if fn_in_deferred ∉ fs then
    (.raised (.fileNotFound fn_in_deferred),
     [.checkExists fn_in_committed, .checkExists fn_in_deferred])
  else if !st.forcerun && fn_out ∈ fs then
    (.skip, [.checkExists fn_in_committed, .checkExists fn_in_deferred,
             .checkExists fn_out])
  else if !st.forcerun then
    (.proc cmd, [.checkExists fn_in_committed, .checkExists fn_in_deferred,
                 .checkExists fn_out, .spawn cmd])
  else
    (.proc cmd, [.checkExists fn_in_committed, .checkExists fn_in_deferred,
                 .spawn cmd])

/-- The command string built by `run_bam_to_fastq_se`. -/
def bam_to_fastq_se_cmd (st : Wf) : String :=
  st.time_cmd ++ " " ++ st.samtools_binary ++ " fastq index " ++
    (st.path_out_pfx ++ "-deferred.bam") ++ " | " ++ st.time_cmd ++ " > " ++
    (st.path_out_pfx ++ "-deferred.fq.gz")

/-- `Leviosam2Workflow.run_bam_to_fastq_se`. -/
def run_bam_to_fastq_se (st : Wf) (fs : FS) : Outcome × List Effect :=
  let fn_in_bam := st.path_out_pfx ++ "-deferred.bam"
  let fn_out := st.path_out_pfx ++ "-deferred.fq.gz"
  let cmd := bam_to_fastq_se_cmd st
  if st.dryrun then (.cmd cmd, [])
  else if fn_in_bam ∉ fs then
    (.raised (.fileNotFound fn_in_bam), [.checkExists fn_in_bam])
  else if !st.forcerun && fn_out ∈ fs then
    (.skip, [.checkExists fn_in_bam, .checkExists fn_out])
  else if !st.forcerun then
    (.proc cmd, [.checkExists fn_in_bam, .checkExists fn_out, .spawn cmd])
  else
    (.proc cmd, [.checkExists fn_in_bam, .spawn cmd])

/-! ### Executable validation -/

/-- `_count_lines`: number of newline characters in a captured output. -/
def count_lines (s : String) : Nat := s.data.count '\n'

/-- The two `ValueError`s `validate_binary` can raise: the first carries the
return code only, the second carries the captured stdout/stderr. -/
inductive ValidateErr : Type where
  | nonZeroReturn (returncode : Int)
  | unexpectedOutput (stdout stderr : String)
  deriving DecidableEq, Repr

/-- `Leviosam2Workflow.validate_binary`, as a function of the probe
process's exit code and captured output.  Note the `else`: when the strict
return-code test passes (or `lenient` is set), the line-count test still
runs. -/
def validate_binary (lenient : Bool) (returncode : Int)
    (stdout stderr : String) : Except ValidateErr Unit :=
  if lenient = false ∧ returncode ≠ 0 then
    .error (.nonZeroReturn returncode)
  else if ¬(count_lines stdout > 1 ∨ count_lines stderr > 1) then
    .error (.unexpectedOutput stdout stderr)
  else .ok ()

/-! ### `_run_workflow` and Python name resolution

`Leviosam2Workflow._run_workflow` builds its first stage call from the
names `args` and `fn_input_alignment`.  Neither is a parameter or an
attribute access; Python resolves them as module globals.  The module's
global namespace contains `args` only when the file runs as a script
(`if __name__ == '__main__': args = parse_args()`); `fn_input_alignment`
is bound nowhere. -/

/-- The module-level names of `workflow/leviosam2.py` at the time
`_run_workflow` executes: imports and top-level definitions, plus `args`
when the module runs as a script. -/
def moduleGlobals (runAsMain : Bool) : List String :=
  ["argparse", "pathlib", "subprocess", "typing",
   "parse_args", "Leviosam2Workflow", "run_workflow"] ++
  (if runAsMain then ["args"] else [])

/-- The local names bound in `_run_workflow`'s frame: only `self`. -/
def runWorkflowLocals : List String := ["self"]

/-- The names read, in evaluation order, while building the argument list of
the first statement `self.run_leviosam2(clft=args.leviosam2_index,
fn_input=fn_input_alignment, ...)`: the callee `self`, then `args` for
`clft`, then `fn_input_alignment`, then `args` for each remaining keyword. -/
def runWorkflowFirstStatementReads : List String :=
  ["self", "args", "fn_input_alignment", "args", "args", "args", "args",
   "args", "args", "args", "args"]

/-- Resolve a list of name reads against an environment, stopping at the
first unbound name (a `NameError`). -/
def resolveNames (env : List String) : List String → Except PyErr Unit
  | [] => .ok ()
  | n :: ns => if n ∈ env then resolveNames env ns else .error (.nameError n)

/-- Evaluation of `_run_workflow` up to its first possible process spawn:
the names of the first statement are resolved; only if all resolve would
`run_leviosam2` — the first stage — be invoked.  Returns the stage name that
would be dispatched on success. -/
def runWorkflowBody (runAsMain : Bool) : Except PyErr String :=
  match resolveNames (runWorkflowLocals ++ moduleGlobals runAsMain)
      runWorkflowFirstStatementReads with
  | .error e => .error e
  | .ok () => .ok "run_leviosam2"

/-- Hygiene condition on the free-form configuration strings (binary paths,
input paths, labels): none of the characters that identify the optional
`-S` lift-commit flags occurs in them.  An adversarial path that itself
contains flag-like text could add extra substring occurrences; the flag
counting claims are proved under this condition. -/
def cleanStr (s : String) : Prop :=
  ∀ ch ∈ s.data, ch ∉ (['q', 'o', 'z', 'h', 'd', '_'] : List Char)

instance (s : String) : Decidable (cleanStr s) := by
  unfold cleanStr; infer_instance

/-- Whether an outcome is a spawned process. -/
def Outcome.isProc : Outcome → Bool
  | .proc _ => true
  | _ => false

/-- The dry-run law for one stage invocation, comparing a dry-run result
`dry` with the execute-mode result `exec` of the same stage: the dry run
produced no effects, raised no missing-input error, and any command the
execute-mode run spawns is exactly the dry run's returned command string. -/
def DryRunLaw (dry exec : Outcome × List Effect) : Prop :=
  dry.2 = [] ∧ (∀ p, dry.1 ≠ .raised (.fileNotFound p)) ∧
  (∀ c, Effect.spawn c ∈ exec.2 → dry.1 = .cmd c)

/-- A concrete workflow state for concrete evaluations: paired-end layout,
bowtie2, execute mode with force-run set. -/
def baseSt : Wf :=
  { aligner := "bowtie2", aligner_binary := "bowtie2",
    sequence_type := "ilmn_pe", path_out_pfx := "test", num_threads := 4,
    dryrun := false, forcerun := true, samtools_binary := "samtools",
    leviosam2_binary := "leviosam2", time_cmd := "",
    fn_target_fasta := "t.fa" }

/-- A concrete workflow state whose free-form strings satisfy `cleanStr`. -/
def cleanSt : Wf :=
  { aligner := "bowtie2", aligner_binary := "bt2",
    sequence_type := "ilmn_pe", path_out_pfx := "test", num_threads := 4,
    dryrun := true, forcerun := false, samtools_binary := "st",
    leviosam2_binary := "ls2", time_cmd := "", fn_target_fasta := "t.fa" }

/-! ## Lemmas: characters of rendered numbers -/

theorem digitChar_isDigit {n : Nat} (h : n < 10) :
    (Nat.digitChar n).isDigit = true := by
  interval_cases n <;> decide

theorem natReprAux_digits :
    ∀ (fuel n : Nat), ∀ c ∈ natReprAux fuel n, c.isDigit = true := by
  intro fuel
  induction fuel with
  | zero => intro n c hc; simp [natReprAux] at hc
  | succ f ih =>
    intro n c hc
    rw [natReprAux] at hc
    by_cases h : n < 10
    · rw [if_pos h] at hc
      simp only [List.mem_singleton] at hc
      exact hc ▸ digitChar_isDigit h
    · rw [if_neg h] at hc
      rcases List.mem_append.mp hc with h1 | h1
      · exact ih _ c h1
      · simp only [List.mem_singleton] at h1
        exact h1 ▸ digitChar_isDigit (Nat.mod_lt _ (by omega))

theorem natRepr_digits {n : Nat} : ∀ c ∈ (natRepr n).data, c.isDigit = true :=
  fun c hc => natReprAux_digits (n + 1) n c hc

theorem intRepr_chars {i : Int} :
    ∀ c ∈ (intRepr i).data, c = '-' ∨ c.isDigit = true := by
  intro c hc
  unfold intRepr at hc
  split at hc
  · rw [String.data_append] at hc
    rcases List.mem_append.mp hc with h1 | h1
    · left; simpa using h1
    · right; exact natRepr_digits c h1
  · right; exact natRepr_digits c hc

theorem pyFloatRepr_chars {q : ℚ} :
    ∀ c ∈ (pyFloatRepr q).data, c = '-' ∨ c = '/' ∨ c.isDigit = true := by
  intro c hc
  unfold pyFloatRepr at hc
  rw [String.data_append, String.data_append] at hc
  rcases List.mem_append.mp hc with h1 | h1
  · rcases List.mem_append.mp h1 with h2 | h2
    · rcases intRepr_chars c h2 with h | h
      · exact Or.inl h
      · exact Or.inr (Or.inr h)
    · right; left; simpa using h2
  · right; right; exact natRepr_digits c h1

theorem not_mem_intRepr {c : Char} (h1 : c ≠ '-') (h2 : c.isDigit = false)
    (i : Int) : c ∉ (intRepr i).data := by
  intro hm
  rcases intRepr_chars c hm with h | h
  · exact h1 h
  · rw [h2] at h; exact Bool.false_ne_true h

theorem not_mem_pyFloatRepr {c : Char} (h1 : c ≠ '-') (h2 : c ≠ '/')
    (h3 : c.isDigit = false) (q : ℚ) : c ∉ (pyFloatRepr q).data := by
  intro hm
  rcases pyFloatRepr_chars c hm with h | h | h
  · exact h1 h
  · exact h2 h
  · rw [h3] at h; exact Bool.false_ne_true h

/-! ## Lemmas: occurrence counting -/

theorem occCount_cons (pat : List Char) (c : Char) (l : List Char) :
    occCount pat (c :: l) =
      (if pat <+: (c :: l) then 1 else 0) + occCount pat l := rfl

theorem occCount_eq_zero_of_not_mem {pat : List Char} {c : Char}
    (hc : c ∈ pat) : ∀ {l : List Char}, c ∉ l → occCount pat l = 0 := by
  intro l
  induction l with
  | nil => intro _; rfl
  | cons x t ih =>
    intro hl
    have h1 : ¬ (pat <+: (x :: t)) := fun hpre => hl (hpre.subset hc)
    rw [occCount_cons, if_neg h1,
      ih (fun h => hl (List.mem_cons_of_mem _ h))]

theorem prefix_getElem?_eq {pat l : List Char} (h : pat <+: l) {k : Nat}
    {c : Char} (hk : pat[k]? = some c) : l[k]? = some c := by
  obtain ⟨t, rfl⟩ := h
  have hlt : k < pat.length := (List.getElem?_eq_some.mp hk).1
  rw [List.getElem?_append, if_pos hlt]
  exact hk

/-- No occurrence of `pat` starts strictly inside `pat ++ B` (offset `d ≥ 1`
into the `pat` part or anywhere in `B`), when `pat` holds the character `e`
exactly at index `m` and `e` does not occur in `B`. -/
theorem occCount_drop_append_zero {pat B : List Char} {e : Char} {m : Nat}
    (he : pat[m]? = some e) (heu : ∀ j, pat[j]? = some e → j = m)
    (heB : e ∉ B) :
    ∀ (t : List Char) (d : Nat), 1 ≤ d → pat.drop d = t →
      occCount pat (t ++ B) = 0 := by
  intro t
  induction t with
  | nil =>
    intro d _ _
    simpa using occCount_eq_zero_of_not_mem (List.getElem?_mem he) heB
  | cons y t' ih =>
    intro d hd hdrop
    have ht' : pat.drop (d + 1) = t' := by
      rw [← List.drop_drop, hdrop]
      rfl
    rw [List.cons_append, occCount_cons]
    have hnp : ¬ (pat <+: (y :: (t' ++ B))) := by
      intro hpre
      have hm : (y :: (t' ++ B))[m]? = some e := prefix_getElem?_eq hpre he
      have hx : ((y :: t') ++ B)[m]? = some e := by simpa using hm
      rw [List.getElem?_append] at hx
      split at hx
      · rw [← hdrop, List.getElem?_drop] at hx
        have := heu _ hx
        omega
      · exact heB (List.getElem?_mem hx)
    rw [if_neg hnp, ih (d + 1) (by omega) ht']

/-- Exactly one occurrence of `pat` in `A ++ pat ++ B`, provided `pat` holds
the character `c` exactly at index `k` with `c ∉ A`, and the character `e`
exactly at index `m` with `e ∉ B`. -/
theorem occCount_eq_one {pat B : List Char} {c e : Char} {k m : Nat}
    (hc : pat[k]? = some c) (hcu : ∀ j, pat[j]? = some c → j = k)
    (he : pat[m]? = some e) (heu : ∀ j, pat[j]? = some e → j = m)
    (heB : e ∉ B) :
    ∀ (A : List Char), c ∉ A → occCount pat (A ++ (pat ++ B)) = 1 := by
  intro A
  induction A with
  | nil =>
    intro _
    rw [List.nil_append]
    obtain ⟨p0, pr, rfl⟩ : ∃ p0 pr, pat = p0 :: pr := by
      cases pat with
      | nil => simp at hc
      | cons p0 pr => exact ⟨p0, pr, rfl⟩
    rw [List.cons_append, occCount_cons]
    have h1 : (p0 :: pr) <+: (p0 :: (pr ++ B)) := by
      rw [← List.cons_append]
      exact List.prefix_append _ _
    rw [if_pos h1,
      occCount_drop_append_zero he heu heB pr 1 (le_refl 1) rfl]
  | cons x A' ih =>
    intro hcA
    rw [List.cons_append, occCount_cons]
    have hnp : ¬ (pat <+: (x :: (A' ++ (pat ++ B)))) := by
      intro hpre
      have hk0 := prefix_getElem?_eq hpre hc
      have hx : ((x :: A') ++ (pat ++ B))[k]? = some c := by simpa using hk0
      rw [List.getElem?_append] at hx
      split at hx
      · exact hcA (List.getElem?_mem hx)
      · have hkp : k < pat.length := (List.getElem?_eq_some.mp hc).1
        have hlen : k - (x :: A').length < pat.length := by omega
        rw [List.getElem?_append, if_pos hlen] at hx
        have hkk := hcu _ hx
        simp only [List.length_cons] at *
        omega
    rw [if_neg hnp, ih (fun h => hcA (List.mem_cons_of_mem _ h))]

theorem no_prefix_drop {sub : List Char} (hne : sub ≠ []) :
    ∀ (L : List Char), occCount sub L = 0 → ∀ j, ¬ (sub <+: L.drop j) := by
  intro L
  induction L with
  | nil =>
    intro _ j hpre
    rw [List.drop_nil] at hpre
    exact hne (List.prefix_nil.mp hpre)
  | cons x t ih =>
    intro h0 j
    rw [occCount_cons] at h0
    have hind : ¬ (sub <+: (x :: t)) := by
      intro hp
      rw [if_pos hp] at h0
      omega
    have ht : occCount sub t = 0 := by
      rw [if_neg hind] at h0
      omega
    match j with
    | 0 => simpa using hind
    | j' + 1 =>
      rw [List.drop_succ_cons]
      exact ih ht j'

/-- If the sub-pattern `sub` occurs at offset `k` inside `pat` but nowhere
inside `l`, then `pat` does not occur in `l` either. -/
theorem occCount_zero_of_sub {pat sub : List Char} {k : Nat}
    (hsub : sub <+: pat.drop k) (hne : sub ≠ []) :
    ∀ (l : List Char), occCount sub l = 0 → occCount pat l = 0 := by
  intro l
  induction l with
  | nil => intro _; rfl
  | cons x t ih =>
    intro h0
    have hind : ¬ (sub <+: (x :: t)) := by
      intro hp
      rw [occCount_cons, if_pos hp] at h0
      omega
    have ht : occCount sub t = 0 := by
      rw [occCount_cons, if_neg hind] at h0
      omega
    rw [occCount_cons]
    have hnp : ¬ (pat <+: (x :: t)) := by
      intro hp
      obtain ⟨u, hu⟩ := hp
      have h1 : pat.drop k <+: (x :: t).drop k := by
        rw [← hu, List.drop_append_eq_append_drop]
        exact List.prefix_append _ _
      exact no_prefix_drop hne (x :: t) h0 k (hsub.trans h1)
    rw [if_neg hnp, ih ht]

/-- The two-character pattern `[c, c']` does not occur in `X ++ P ++ Y` when
`c` occurs in `P` exactly at index `k`, the character after it differs from
`c'`, and `c` occurs in neither `X` nor `Y`. -/
theorem occCount_two_zero {c c' : Char} {P : List Char} {k : Nat}
    (hcu : ∀ j, P[j]? = some c → j = k)
    {b : Char} (hb : P[k + 1]? = some b) (hbne : b ≠ c') :
    ∀ (X Y : List Char), c ∉ X → c ∉ Y →
      occCount [c, c'] (X ++ (P ++ Y)) = 0 := by
  intro X
  induction X with
  | nil =>
    intro Y _ hY
    rw [List.nil_append]
    suffices haux : ∀ (t : List Char) (d : Nat), P.drop d = t →
        occCount [c, c'] (t ++ Y) = 0 from haux P 0 rfl
    intro t
    induction t with
    | nil =>
      intro d _
      simpa using occCount_eq_zero_of_not_mem (List.mem_cons_self c [c']) hY
    | cons y t' ihaux =>
      intro d hdrop
      have ht' : P.drop (d + 1) = t' := by
        rw [← List.drop_drop, hdrop]
        rfl
      rw [List.cons_append, occCount_cons]
      have hnp : ¬ ([c, c'] <+: (y :: (t' ++ Y))) := by
        intro hp
        have h0 : (y :: (t' ++ Y))[0]? = some c := prefix_getElem?_eq hp rfl
        have hy : y = c := by simpa using h0
        have hPd : P[d]? = some c := by
          have h00 : (P.drop d)[0]? = some c := by
            rw [hdrop]
            simp [hy]
          rwa [List.getElem?_drop, Nat.add_zero] at h00
        have hdk : d = k := hcu _ hPd
        have h1 : (y :: (t' ++ Y))[1]? = some c' := prefix_getElem?_eq hp rfl
        have h1' : ((P.drop d) ++ Y)[1]? = some c' := by
          rw [hdrop]
          simpa using h1
        have hklen : k + 1 < P.length := (List.getElem?_eq_some.mp hb).1
        have hlen : 1 < (P.drop d).length := by
          rw [List.length_drop]
          omega
        rw [List.getElem?_append, if_pos hlen, List.getElem?_drop, hdk] at h1'
        rw [hb] at h1'
        exact hbne (Option.some.inj h1')
      rw [if_neg hnp, ihaux (d + 1) ht']
  | cons x X' ihX =>
    intro Y hX hY
    rw [List.cons_append, occCount_cons]
    have hnp : ¬ ([c, c'] <+: (x :: (X' ++ (P ++ Y)))) := by
      intro hp
      have h0 : (x :: (X' ++ (P ++ Y)))[0]? = some c := prefix_getElem?_eq hp rfl
      have hx : x = c := by simpa using h0
      exact hX (hx ▸ List.mem_cons_self _ _)
    rw [if_neg hnp, ihX Y (fun h => hX (List.mem_cons_of_mem _ h)) hY]

/-! ## Lemmas: occurrence counts in command strings -/

theorem unique_in_append {pre rest : List Char} {c : Char} {k : Nat}
    (huniq : ∀ j < pre.length, pre[j]? = some c → j = k) (hrest : c ∉ rest) :
    ∀ j, (pre ++ rest)[j]? = some c → j = k := by
  intro j hj
  by_cases h : j < pre.length
  · rw [List.getElem?_append, if_pos h] at hj
    exact huniq j h hj
  · rw [List.getElem?_append, if_neg h] at hj
    exact absurd (List.getElem?_mem hj) hrest

theorem not_mem_str_append {c : Char} {s t : String} (hs : c ∉ s.data)
    (ht : c ∉ t.data) : c ∉ (s ++ t).data := by
  rw [String.data_append]
  intro h
  rcases List.mem_append.mp h with h | h
  · exact hs h
  · exact ht h

theorem cleanStr_not_mem {s : String} (h : cleanStr s) {c : Char}
    (hc : c ∈ (['q', 'o', 'z', 'h', 'd', '_'] : List Char)) : c ∉ s.data :=
  fun hm => h c hm hc

theorem not_mem_optIntArg {c : Char} {key : String} (hkey : c ∉ key.data)
    (hS : c ∉ ("-S ").data) (hcol : c ∉ (":").data) (h2 : c ≠ '-')
    (h3 : c.isDigit = false) : ∀ v : Option Int, c ∉ (optIntArg key v).data := by
  intro v
  match v with
  | none => simp [optIntArg]
  | some x =>
    rw [optIntArg]
    split
    · simp
    · exact not_mem_str_append
        (not_mem_str_append (not_mem_str_append hS hkey) hcol)
        (not_mem_intRepr h2 h3 x)

theorem not_mem_optFracArg {c : Char} (hlit : c ∉ ("-S clipped_frac:").data)
    (h2 : c ≠ '-') (h3 : c ≠ '/') (h4 : c.isDigit = false) :
    ∀ v : Option ℚ, c ∉ (optFracArg v).data := by
  intro v
  match v with
  | none => simp [optFracArg]
  | some x =>
    rw [optFracArg]
    split
    · simp
    · exact not_mem_str_append hlit (not_mem_pyFloatRepr h2 h3 h4 x)

theorem not_mem_optGapArg {c : Char} (hlit : c ∉ ("-G ").data)
    (h2 : c ≠ '-') (h3 : c.isDigit = false) :
    ∀ v : Option Int, c ∉ (optGapArg v).data := by
  intro v
  match v with
  | none => simp [optGapArg]
  | some x =>
    rw [optGapArg]
    split
    · simp
    · exact not_mem_str_append hlit (not_mem_intRepr h2 h3 x)

theorem not_mem_optStrArg {c : Char} {flag v : String} (hflag : c ∉ flag.data)
    (hsp : c ∉ (" ").data) (hv : c ∉ v.data) : c ∉ (optStrArg flag v).data := by
  rw [optStrArg]
  split
  · simp
  · exact not_mem_str_append (not_mem_str_append hflag hsp) hv

theorem strOcc_append_eq_one {pat A B : String} {c e : Char} {k m : Nat}
    (hc : pat.data[k]? = some c) (hcu : ∀ j, pat.data[j]? = some c → j = k)
    (he : pat.data[m]? = some e) (heu : ∀ j, pat.data[j]? = some e → j = m)
    (hcA : c ∉ A.data) (heB : e ∉ B.data) :
    strOcc pat (A ++ (pat ++ B)) = 1 := by
  unfold strOcc
  rw [String.data_append, String.data_append]
  exact occCount_eq_one hc hcu he heu heB A.data hcA

theorem strOcc_zero_of_not_mem {pat s : String} {c : Char} (hc : c ∈ pat.data)
    (hs : c ∉ s.data) : strOcc pat s = 0 :=
  occCount_eq_zero_of_not_mem hc hs

theorem optIntArg_eq_empty {v : Option Int} (h : v.getD 0 = 0) (key : String) :
    optIntArg key v = "" := by
  match v with
  | none => rfl
  | some x =>
    simp only [Option.getD_some] at h
    rw [optIntArg, if_pos h]

theorem optFracArg_eq_empty {v : Option ℚ} (h : v.getD 0 = 0) :
    optFracArg v = "" := by
  match v with
  | none => rfl
  | some x =>
    simp only [Option.getD_some] at h
    rw [optFracArg, if_pos h]

/-! ## Lemmas: the five optional lift-commit flags of the `lift` command -/

theorem lift_cmd_mapq_one (st : Wf) (clft fn_input : String) (v : Int)
    (score : Option Int) (frac : Option ℚ) (isize hdist gap : Option Int)
    (bedc bedd rcfg : String) (hv : v ≠ 0)
    (c1 : cleanStr st.time_cmd) (c2 : cleanStr st.leviosam2_binary)
    (c3 : cleanStr clft) (c4 : cleanStr fn_input)
    (c5 : cleanStr st.path_out_pfx) (c6 : cleanStr st.fn_target_fasta)
    (c7 : cleanStr bedc) (c8 : cleanStr bedd) (c9 : cleanStr rcfg) :
    strOcc ("-S mapq:" ++ intRepr v)
      (leviosam2_cmd st clft fn_input (some v) score frac isize hdist gap
        bedc bedd rcfg) = 1 := by
  have hsplit : leviosam2_cmd st clft fn_input (some v) score frac isize hdist
      gap bedc bedd rcfg =
      (st.time_cmd ++ " " ++ st.leviosam2_binary ++ " lift -C " ++ clft ++
        " -a " ++ fn_input ++ " -p " ++ st.path_out_pfx ++ " -t " ++
        intRepr st.num_threads ++ " -m -f " ++ st.fn_target_fasta ++ " ") ++
      (("-S mapq:" ++ intRepr v) ++
        (" " ++ optIntArg "aln_score" score ++ " " ++ optFracArg frac ++ " " ++
          optIntArg "hdist" hdist ++ " " ++ optIntArg "isize" isize ++ " " ++
          optGapArg gap ++ " " ++ optStrArg "-r" bedc ++ " " ++
          optStrArg "-D" bedd ++ " " ++ optStrArg "-x" rcfg)) := by
    rw [leviosam2_cmd]
    rw [show optIntArg "mapq" (some v) = "-S mapq:" ++ intRepr v by
      rw [optIntArg, if_neg hv]; rfl]
    simp only [String.append_assoc]
  rw [hsplit]
  have hqint : ('q' : Char) ∉ (intRepr v).data :=
    not_mem_intRepr (by decide) (by decide) v
  have hc : ("-S mapq:" ++ intRepr v).data[6]? = some 'q' := by
    rw [String.data_append, List.getElem?_append, if_pos (by decide)]
    decide
  have hcu : ∀ j, ("-S mapq:" ++ intRepr v).data[j]? = some 'q' → j = 6 := by
    intro j hj
    rw [String.data_append] at hj
    exact unique_in_append (by decide) hqint j hj
  apply strOcc_append_eq_one hc hcu hc hcu
  · repeat' apply not_mem_str_append
    all_goals first
      | exact cleanStr_not_mem c1 (by decide)
      | exact cleanStr_not_mem c2 (by decide)
      | exact cleanStr_not_mem c3 (by decide)
      | exact cleanStr_not_mem c4 (by decide)
      | exact cleanStr_not_mem c5 (by decide)
      | exact cleanStr_not_mem c6 (by decide)
      | exact not_mem_intRepr (by decide) (by decide) _
      | decide
  · repeat' apply not_mem_str_append
    all_goals first
      | exact not_mem_optIntArg (by decide) (by decide) (by decide) (by decide)
          (by decide) _
      | exact not_mem_optFracArg (by decide) (by decide) (by decide)
          (by decide) _
      | exact not_mem_optGapArg (by decide) (by decide) (by decide) _
      | exact not_mem_optStrArg (by decide) (by decide)
          (cleanStr_not_mem c7 (by decide))
      | exact not_mem_optStrArg (by decide) (by decide)
          (cleanStr_not_mem c8 (by decide))
      | exact not_mem_optStrArg (by decide) (by decide)
          (cleanStr_not_mem c9 (by decide))
      | decide

theorem lift_cmd_score_one (st : Wf) (clft fn_input : String) (v : Int)
    (mapq : Option Int) (frac : Option ℚ) (isize hdist gap : Option Int)
    (bedc bedd rcfg : String) (hv : v ≠ 0)
    (c1 : cleanStr st.time_cmd) (c2 : cleanStr st.leviosam2_binary)
    (c3 : cleanStr clft) (c4 : cleanStr fn_input)
    (c5 : cleanStr st.path_out_pfx) (c6 : cleanStr st.fn_target_fasta)
    (c7 : cleanStr bedc) (c8 : cleanStr bedd) (c9 : cleanStr rcfg) :
    strOcc ("-S aln_score:" ++ intRepr v)
      (leviosam2_cmd st clft fn_input mapq (some v) frac isize hdist gap
        bedc bedd rcfg) = 1 := by
  have hsplit : leviosam2_cmd st clft fn_input mapq (some v) frac isize hdist
      gap bedc bedd rcfg =
      (st.time_cmd ++ " " ++ st.leviosam2_binary ++ " lift -C " ++ clft ++
        " -a " ++ fn_input ++ " -p " ++ st.path_out_pfx ++ " -t " ++
        intRepr st.num_threads ++ " -m -f " ++ st.fn_target_fasta ++ " " ++
        optIntArg "mapq" mapq ++ " ") ++
      (("-S aln_score:" ++ intRepr v) ++
        (" " ++ optFracArg frac ++ " " ++
          optIntArg "hdist" hdist ++ " " ++ optIntArg "isize" isize ++ " " ++
          optGapArg gap ++ " " ++ optStrArg "-r" bedc ++ " " ++
          optStrArg "-D" bedd ++ " " ++ optStrArg "-x" rcfg)) := by
    rw [leviosam2_cmd]
    rw [show optIntArg "aln_score" (some v) = "-S aln_score:" ++ intRepr v by
      rw [optIntArg, if_neg hv]; rfl]
    simp only [String.append_assoc]
  rw [hsplit]
  have hoint : ('o' : Char) ∉ (intRepr v).data :=
    not_mem_intRepr (by decide) (by decide) v
  have hc : ("-S aln_score:" ++ intRepr v).data[9]? = some 'o' := by
    rw [String.data_append, List.getElem?_append, if_pos (by decide)]
    decide
  have hcu : ∀ j, ("-S aln_score:" ++ intRepr v).data[j]? = some 'o' →
      j = 9 := by
    intro j hj
    rw [String.data_append] at hj
    exact unique_in_append (by decide) hoint j hj
  apply strOcc_append_eq_one hc hcu hc hcu
  · repeat' apply not_mem_str_append
    all_goals first
      | exact cleanStr_not_mem c1 (by decide)
      | exact cleanStr_not_mem c2 (by decide)
      | exact cleanStr_not_mem c3 (by decide)
      | exact cleanStr_not_mem c4 (by decide)
      | exact cleanStr_not_mem c5 (by decide)
      | exact cleanStr_not_mem c6 (by decide)
      | exact not_mem_intRepr (by decide) (by decide) _
      | exact not_mem_optIntArg (by decide) (by decide) (by decide) (by decide)
          (by decide) _
      | decide
  · repeat' apply not_mem_str_append
    all_goals first
      | exact not_mem_optIntArg (by decide) (by decide) (by decide) (by decide)
          (by decide) _
      | exact not_mem_optFracArg (by decide) (by decide) (by decide)
          (by decide) _
      | exact not_mem_optGapArg (by decide) (by decide) (by decide) _
      | exact not_mem_optStrArg (by decide) (by decide)
          (cleanStr_not_mem c7 (by decide))
      | exact not_mem_optStrArg (by decide) (by decide)
          (cleanStr_not_mem c8 (by decide))
      | exact not_mem_optStrArg (by decide) (by decide)
          (cleanStr_not_mem c9 (by decide))
      | decide

theorem lift_cmd_frac_one (st : Wf) (clft fn_input : String) (v : ℚ)
    (mapq score : Option Int) (isize hdist gap : Option Int)
    (bedc bedd rcfg : String) (hv : v ≠ 0)
    (c1 : cleanStr st.time_cmd) (c2 : cleanStr st.leviosam2_binary)
    (c3 : cleanStr clft) (c4 : cleanStr fn_input)
    (c5 : cleanStr st.path_out_pfx) (c6 : cleanStr st.fn_target_fasta)
    (c7 : cleanStr bedc) (c8 : cleanStr bedd) (c9 : cleanStr rcfg) :
    strOcc ("-S clipped_frac:" ++ pyFloatRepr v)
      (leviosam2_cmd st clft fn_input mapq score (some v) isize hdist gap
        bedc bedd rcfg) = 1 := by
  have hsplit : leviosam2_cmd st clft fn_input mapq score (some v) isize hdist
      gap bedc bedd rcfg =
      (st.time_cmd ++ " " ++ st.leviosam2_binary ++ " lift -C " ++ clft ++
        " -a " ++ fn_input ++ " -p " ++ st.path_out_pfx ++ " -t " ++
        intRepr st.num_threads ++ " -m -f " ++ st.fn_target_fasta ++ " " ++
        optIntArg "mapq" mapq ++ " " ++ optIntArg "aln_score" score ++ " ") ++
      (("-S clipped_frac:" ++ pyFloatRepr v) ++
        (" " ++ optIntArg "hdist" hdist ++ " " ++ optIntArg "isize" isize ++
          " " ++ optGapArg gap ++ " " ++ optStrArg "-r" bedc ++ " " ++
          optStrArg "-D" bedd ++ " " ++ optStrArg "-x" rcfg)) := by
    rw [leviosam2_cmd]
    rw [show optFracArg (some v) = "-S clipped_frac:" ++ pyFloatRepr v by
      rw [optFracArg, if_neg hv]]
    simp only [String.append_assoc]
  rw [hsplit]
  have hdfl : ('d' : Char) ∉ (pyFloatRepr v).data :=
    not_mem_pyFloatRepr (by decide) (by decide) (by decide) v
  have hufl : ('_' : Char) ∉ (pyFloatRepr v).data :=
    not_mem_pyFloatRepr (by decide) (by decide) (by decide) v
  have hc : ("-S clipped_frac:" ++ pyFloatRepr v).data[9]? = some 'd' := by
    rw [String.data_append, List.getElem?_append, if_pos (by decide)]
    decide
  have hcu : ∀ j, ("-S clipped_frac:" ++ pyFloatRepr v).data[j]? = some 'd' →
      j = 9 := by
    intro j hj
    rw [String.data_append] at hj
    exact unique_in_append (by decide) hdfl j hj
  have he : ("-S clipped_frac:" ++ pyFloatRepr v).data[10]? = some '_' := by
    rw [String.data_append, List.getElem?_append, if_pos (by decide)]
    decide
  have heu : ∀ j, ("-S clipped_frac:" ++ pyFloatRepr v).data[j]? = some '_' →
      j = 10 := by
    intro j hj
    rw [String.data_append] at hj
    exact unique_in_append (by decide) hufl j hj
  apply strOcc_append_eq_one hc hcu he heu
  · repeat' apply not_mem_str_append
    all_goals first
      | exact cleanStr_not_mem c1 (by decide)
      | exact cleanStr_not_mem c2 (by decide)
      | exact cleanStr_not_mem c3 (by decide)
      | exact cleanStr_not_mem c4 (by decide)
      | exact cleanStr_not_mem c5 (by decide)
      | exact cleanStr_not_mem c6 (by decide)
      | exact not_mem_intRepr (by decide) (by decide) _
      | exact not_mem_optIntArg (by decide) (by decide) (by decide) (by decide)
          (by decide) _
      | decide
  · repeat' apply not_mem_str_append
    all_goals first
      | exact not_mem_optIntArg (by decide) (by decide) (by decide) (by decide)
          (by decide) _
      | exact not_mem_optGapArg (by decide) (by decide) (by decide) _
      | exact not_mem_optStrArg (by decide) (by decide)
          (cleanStr_not_mem c7 (by decide))
      | exact not_mem_optStrArg (by decide) (by decide)
          (cleanStr_not_mem c8 (by decide))
      | exact not_mem_optStrArg (by decide) (by decide)
          (cleanStr_not_mem c9 (by decide))
      | decide

theorem lift_cmd_hdist_one (st : Wf) (clft fn_input : String) (v : Int)
    (mapq score : Option Int) (frac : Option ℚ) (isize gap : Option Int)
    (bedc bedd rcfg : String) (hv : v ≠ 0)
    (c1 : cleanStr st.time_cmd) (c2 : cleanStr st.leviosam2_binary)
    (c3 : cleanStr clft) (c4 : cleanStr fn_input)
    (c5 : cleanStr st.path_out_pfx) (c6 : cleanStr st.fn_target_fasta)
    (c7 : cleanStr bedc) (c8 : cleanStr bedd) (c9 : cleanStr rcfg) :
    strOcc ("-S hdist:" ++ intRepr v)
      (leviosam2_cmd st clft fn_input mapq score frac isize (some v) gap
        bedc bedd rcfg) = 1 := by
  have hsplit : leviosam2_cmd st clft fn_input mapq score frac isize (some v)
      gap bedc bedd rcfg =
      (st.time_cmd ++ " " ++ st.leviosam2_binary ++ " lift -C " ++ clft ++
        " -a " ++ fn_input ++ " -p " ++ st.path_out_pfx ++ " -t " ++
        intRepr st.num_threads ++ " -m -f " ++ st.fn_target_fasta ++ " " ++
        optIntArg "mapq" mapq ++ " " ++ optIntArg "aln_score" score ++ " " ++
        optFracArg frac ++ " ") ++
      (("-S hdist:" ++ intRepr v) ++
        (" " ++ optIntArg "isize" isize ++ " " ++ optGapArg gap ++ " " ++
          optStrArg "-r" bedc ++ " " ++ optStrArg "-D" bedd ++ " " ++
          optStrArg "-x" rcfg)) := by
    rw [leviosam2_cmd]
    rw [show optIntArg "hdist" (some v) = "-S hdist:" ++ intRepr v by
      rw [optIntArg, if_neg hv]; rfl]
    simp only [String.append_assoc]
  rw [hsplit]
  have hhint : ('h' : Char) ∉ (intRepr v).data :=
    not_mem_intRepr (by decide) (by decide) v
  have hc : ("-S hdist:" ++ intRepr v).data[3]? = some 'h' := by
    rw [String.data_append, List.getElem?_append, if_pos (by decide)]
    decide
  have hcu : ∀ j, ("-S hdist:" ++ intRepr v).data[j]? = some 'h' → j = 3 := by
    intro j hj
    rw [String.data_append] at hj
    exact unique_in_append (by decide) hhint j hj
  apply strOcc_append_eq_one hc hcu hc hcu
  · repeat' apply not_mem_str_append
    all_goals first
      | exact cleanStr_not_mem c1 (by decide)
      | exact cleanStr_not_mem c2 (by decide)
      | exact cleanStr_not_mem c3 (by decide)
      | exact cleanStr_not_mem c4 (by decide)
      | exact cleanStr_not_mem c5 (by decide)
      | exact cleanStr_not_mem c6 (by decide)
      | exact not_mem_intRepr (by decide) (by decide) _
      | exact not_mem_optIntArg (by decide) (by decide) (by decide) (by decide)
          (by decide) _
      | exact not_mem_optFracArg (by decide) (by decide) (by decide)
          (by decide) _
      | decide
  · repeat' apply not_mem_str_append
    all_goals first
      | exact not_mem_optIntArg (by decide) (by decide) (by decide) (by decide)
          (by decide) _
      | exact not_mem_optGapArg (by decide) (by decide) (by decide) _
      | exact not_mem_optStrArg (by decide) (by decide)
          (cleanStr_not_mem c7 (by decide))
      | exact not_mem_optStrArg (by decide) (by decide)
          (cleanStr_not_mem c8 (by decide))
      | exact not_mem_optStrArg (by decide) (by decide)
          (cleanStr_not_mem c9 (by decide))
      | decide

theorem lift_cmd_isize_one (st : Wf) (clft fn_input : String) (v : Int)
    (mapq score : Option Int) (frac : Option ℚ) (hdist gap : Option Int)
    (bedc bedd rcfg : String) (hv : v ≠ 0)
    (c1 : cleanStr st.time_cmd) (c2 : cleanStr st.leviosam2_binary)
    (c3 : cleanStr clft) (c4 : cleanStr fn_input)
    (c5 : cleanStr st.path_out_pfx) (c6 : cleanStr st.fn_target_fasta)
    (c7 : cleanStr bedc) (c8 : cleanStr bedd) (c9 : cleanStr rcfg) :
    strOcc ("-S isize:" ++ intRepr v)
      (leviosam2_cmd st clft fn_input mapq score frac (some v) hdist gap
        bedc bedd rcfg) = 1 := by
  have hsplit : leviosam2_cmd st clft fn_input mapq score frac (some v) hdist
      gap bedc bedd rcfg =
      (st.time_cmd ++ " " ++ st.leviosam2_binary ++ " lift -C " ++ clft ++
        " -a " ++ fn_input ++ " -p " ++ st.path_out_pfx ++ " -t " ++
        intRepr st.num_threads ++ " -m -f " ++ st.fn_target_fasta ++ " " ++
        optIntArg "mapq" mapq ++ " " ++ optIntArg "aln_score" score ++ " " ++
        optFracArg frac ++ " " ++ optIntArg "hdist" hdist ++ " ") ++
      (("-S isize:" ++ intRepr v) ++
        (" " ++ optGapArg gap ++ " " ++ optStrArg "-r" bedc ++ " " ++
          optStrArg "-D" bedd ++ " " ++ optStrArg "-x" rcfg)) := by
    rw [leviosam2_cmd]
    rw [show optIntArg "isize" (some v) = "-S isize:" ++ intRepr v by
      rw [optIntArg, if_neg hv]; rfl]
    simp only [String.append_assoc]
  rw [hsplit]
  have hzint : ('z' : Char) ∉ (intRepr v).data :=
    not_mem_intRepr (by decide) (by decide) v
  have hc : ("-S isize:" ++ intRepr v).data[6]? = some 'z' := by
    rw [String.data_append, List.getElem?_append, if_pos (by decide)]
    decide
  have hcu : ∀ j, ("-S isize:" ++ intRepr v).data[j]? = some 'z' → j = 6 := by
    intro j hj
    rw [String.data_append] at hj
    exact unique_in_append (by decide) hzint j hj
  apply strOcc_append_eq_one hc hcu hc hcu
  · repeat' apply not_mem_str_append
    all_goals first
      | exact cleanStr_not_mem c1 (by decide)
      | exact cleanStr_not_mem c2 (by decide)
      | exact cleanStr_not_mem c3 (by decide)
      | exact cleanStr_not_mem c4 (by decide)
      | exact cleanStr_not_mem c5 (by decide)
      | exact cleanStr_not_mem c6 (by decide)
      | exact not_mem_intRepr (by decide) (by decide) _
      | exact not_mem_optIntArg (by decide) (by decide) (by decide) (by decide)
          (by decide) _
      | exact not_mem_optFracArg (by decide) (by decide) (by decide)
          (by decide) _
      | decide
  · repeat' apply not_mem_str_append
    all_goals first
      | exact not_mem_optGapArg (by decide) (by decide) (by decide) _
      | exact not_mem_optStrArg (by decide) (by decide)
          (cleanStr_not_mem c7 (by decide))
      | exact not_mem_optStrArg (by decide) (by decide)
          (cleanStr_not_mem c8 (by decide))
      | exact not_mem_optStrArg (by decide) (by decide)
          (cleanStr_not_mem c9 (by decide))
      | decide

theorem lift_cmd_mapq_zero (st : Wf) (clft fn_input : String)
    (mapq score : Option Int) (frac : Option ℚ) (isize hdist gap : Option Int)
    (bedc bedd rcfg : String) (hm : mapq.getD 0 = 0)
    (c1 : cleanStr st.time_cmd) (c2 : cleanStr st.leviosam2_binary)
    (c3 : cleanStr clft) (c4 : cleanStr fn_input)
    (c5 : cleanStr st.path_out_pfx) (c6 : cleanStr st.fn_target_fasta)
    (c7 : cleanStr bedc) (c8 : cleanStr bedd) (c9 : cleanStr rcfg) :
    strOcc "-S mapq:"
      (leviosam2_cmd st clft fn_input mapq score frac isize hdist gap
        bedc bedd rcfg) = 0 := by
  apply strOcc_zero_of_not_mem (c := 'q') (by decide)
  rw [leviosam2_cmd, optIntArg_eq_empty hm]
  repeat' apply not_mem_str_append
  all_goals first
    | exact cleanStr_not_mem c1 (by decide)
    | exact cleanStr_not_mem c2 (by decide)
    | exact cleanStr_not_mem c3 (by decide)
    | exact cleanStr_not_mem c4 (by decide)
    | exact cleanStr_not_mem c5 (by decide)
    | exact cleanStr_not_mem c6 (by decide)
    | exact not_mem_intRepr (by decide) (by decide) _
    | exact not_mem_optIntArg (by decide) (by decide) (by decide) (by decide)
        (by decide) _
    | exact not_mem_optFracArg (by decide) (by decide) (by decide)
        (by decide) _
    | exact not_mem_optGapArg (by decide) (by decide) (by decide) _
    | exact not_mem_optStrArg (by decide) (by decide)
        (cleanStr_not_mem c7 (by decide))
    | exact not_mem_optStrArg (by decide) (by decide)
        (cleanStr_not_mem c8 (by decide))
    | exact not_mem_optStrArg (by decide) (by decide)
        (cleanStr_not_mem c9 (by decide))
    | decide

theorem lift_cmd_score_zero (st : Wf) (clft fn_input : String)
    (mapq score : Option Int) (frac : Option ℚ) (isize hdist gap : Option Int)
    (bedc bedd rcfg : String) (hs : score.getD 0 = 0)
    (c1 : cleanStr st.time_cmd) (c2 : cleanStr st.leviosam2_binary)
    (c3 : cleanStr clft) (c4 : cleanStr fn_input)
    (c5 : cleanStr st.path_out_pfx) (c6 : cleanStr st.fn_target_fasta)
    (c7 : cleanStr bedc) (c8 : cleanStr bedd) (c9 : cleanStr rcfg) :
    strOcc "-S aln_score:"
      (leviosam2_cmd st clft fn_input mapq score frac isize hdist gap
        bedc bedd rcfg) = 0 := by
  apply strOcc_zero_of_not_mem (c := 'o') (by decide)
  rw [leviosam2_cmd, optIntArg_eq_empty hs]
  repeat' apply not_mem_str_append
  all_goals first
    | exact cleanStr_not_mem c1 (by decide)
    | exact cleanStr_not_mem c2 (by decide)
    | exact cleanStr_not_mem c3 (by decide)
    | exact cleanStr_not_mem c4 (by decide)
    | exact cleanStr_not_mem c5 (by decide)
    | exact cleanStr_not_mem c6 (by decide)
    | exact not_mem_intRepr (by decide) (by decide) _
    | exact not_mem_optIntArg (by decide) (by decide) (by decide) (by decide)
        (by decide) _
    | exact not_mem_optFracArg (by decide) (by decide) (by decide)
        (by decide) _
    | exact not_mem_optGapArg (by decide) (by decide) (by decide) _
    | exact not_mem_optStrArg (by decide) (by decide)
        (cleanStr_not_mem c7 (by decide))
    | exact not_mem_optStrArg (by decide) (by decide)
        (cleanStr_not_mem c8 (by decide))
    | exact not_mem_optStrArg (by decide) (by decide)
        (cleanStr_not_mem c9 (by decide))
    | decide

theorem lift_cmd_hdist_zero (st : Wf) (clft fn_input : String)
    (mapq score : Option Int) (frac : Option ℚ) (isize hdist gap : Option Int)
    (bedc bedd rcfg : String) (hh : hdist.getD 0 = 0)
    (c1 : cleanStr st.time_cmd) (c2 : cleanStr st.leviosam2_binary)
    (c3 : cleanStr clft) (c4 : cleanStr fn_input)
    (c5 : cleanStr st.path_out_pfx) (c6 : cleanStr st.fn_target_fasta)
    (c7 : cleanStr bedc) (c8 : cleanStr bedd) (c9 : cleanStr rcfg) :
    strOcc "-S hdist:"
      (leviosam2_cmd st clft fn_input mapq score frac isize hdist gap
        bedc bedd rcfg) = 0 := by
  apply strOcc_zero_of_not_mem (c := 'h') (by decide)
  rw [leviosam2_cmd, optIntArg_eq_empty hh]
  repeat' apply not_mem_str_append
  all_goals first
    | exact cleanStr_not_mem c1 (by decide)
    | exact cleanStr_not_mem c2 (by decide)
    | exact cleanStr_not_mem c3 (by decide)
    | exact cleanStr_not_mem c4 (by decide)
    | exact cleanStr_not_mem c5 (by decide)
    | exact cleanStr_not_mem c6 (by decide)
    | exact not_mem_intRepr (by decide) (by decide) _
    | exact not_mem_optIntArg (by decide) (by decide) (by decide) (by decide)
        (by decide) _
    | exact not_mem_optFracArg (by decide) (by decide) (by decide)
        (by decide) _
    | exact not_mem_optGapArg (by decide) (by decide) (by decide) _
    | exact not_mem_optStrArg (by decide) (by decide)
        (cleanStr_not_mem c7 (by decide))
    | exact not_mem_optStrArg (by decide) (by decide)
        (cleanStr_not_mem c8 (by decide))
    | exact not_mem_optStrArg (by decide) (by decide)
        (cleanStr_not_mem c9 (by decide))
    | decide

theorem lift_cmd_isize_zero (st : Wf) (clft fn_input : String)
    (mapq score : Option Int) (frac : Option ℚ) (isize hdist gap : Option Int)
    (bedc bedd rcfg : String) (hi : isize.getD 0 = 0)
    (c1 : cleanStr st.time_cmd) (c2 : cleanStr st.leviosam2_binary)
    (c3 : cleanStr clft) (c4 : cleanStr fn_input)
    (c5 : cleanStr st.path_out_pfx) (c6 : cleanStr st.fn_target_fasta)
    (c7 : cleanStr bedc) (c8 : cleanStr bedd) (c9 : cleanStr rcfg) :
    strOcc "-S isize:"
      (leviosam2_cmd st clft fn_input mapq score frac isize hdist gap
        bedc bedd rcfg) = 0 := by
  apply strOcc_zero_of_not_mem (c := 'z') (by decide)
  rw [leviosam2_cmd, optIntArg_eq_empty hi]
  repeat' apply not_mem_str_append
  all_goals first
    | exact cleanStr_not_mem c1 (by decide)
    | exact cleanStr_not_mem c2 (by decide)
    | exact cleanStr_not_mem c3 (by decide)
    | exact cleanStr_not_mem c4 (by decide)
    | exact cleanStr_not_mem c5 (by decide)
    | exact cleanStr_not_mem c6 (by decide)
    | exact not_mem_intRepr (by decide) (by decide) _
    | exact not_mem_optIntArg (by decide) (by decide) (by decide) (by decide)
        (by decide) _
    | exact not_mem_optFracArg (by decide) (by decide) (by decide)
        (by decide) _
    | exact not_mem_optGapArg (by decide) (by decide) (by decide) _
    | exact not_mem_optStrArg (by decide) (by decide)
        (cleanStr_not_mem c7 (by decide))
    | exact not_mem_optStrArg (by decide) (by decide)
        (cleanStr_not_mem c8 (by decide))
    | exact not_mem_optStrArg (by decide) (by decide)
        (cleanStr_not_mem c9 (by decide))
    | decide

theorem lift_cmd_frac_zero (st : Wf) (clft fn_input : String)
    (mapq score : Option Int) (frac : Option ℚ) (isize hdist gap : Option Int)
    (bedc bedd rcfg : String) (hf : frac.getD 0 = 0)
    (c1 : cleanStr st.time_cmd) (c2 : cleanStr st.leviosam2_binary)
    (c3 : cleanStr clft) (c4 : cleanStr fn_input)
    (c5 : cleanStr st.path_out_pfx) (c6 : cleanStr st.fn_target_fasta)
    (c7 : cleanStr bedc) (c8 : cleanStr bedd) (c9 : cleanStr rcfg) :
    strOcc "-S clipped_frac:"
      (leviosam2_cmd st clft fn_input mapq score frac isize hdist gap
        bedc bedd rcfg) = 0 := by
  by_cases hh : hdist.getD 0 = 0
  · -- no `hdist` flag either, so no `d` occurs in the command at all
    apply strOcc_zero_of_not_mem (c := 'd') (by decide)
    rw [leviosam2_cmd, optFracArg_eq_empty hf, optIntArg_eq_empty hh]
    repeat' apply not_mem_str_append
    all_goals first
      | exact cleanStr_not_mem c1 (by decide)
      | exact cleanStr_not_mem c2 (by decide)
      | exact cleanStr_not_mem c3 (by decide)
      | exact cleanStr_not_mem c4 (by decide)
      | exact cleanStr_not_mem c5 (by decide)
      | exact cleanStr_not_mem c6 (by decide)
      | exact not_mem_intRepr (by decide) (by decide) _
      | exact not_mem_optIntArg (by decide) (by decide) (by decide) (by decide)
          (by decide) _
      | exact not_mem_optGapArg (by decide) (by decide) (by decide) _
      | exact not_mem_optStrArg (by decide) (by decide)
          (cleanStr_not_mem c7 (by decide))
      | exact not_mem_optStrArg (by decide) (by decide)
          (cleanStr_not_mem c8 (by decide))
      | exact not_mem_optStrArg (by decide) (by decide)
          (cleanStr_not_mem c9 (by decide))
      | decide
  · -- an `hdist` flag is present: its `d` is followed by `i`, never by `_`,
    -- so the pair `d_` — hence the clipped_frac flag — never occurs
    obtain ⟨x, rfl, hxne⟩ : ∃ x, hdist = some x ∧ x ≠ 0 := by
      match hdist, hh with
      | some x, hh => exact ⟨x, rfl, by simpa using hh⟩
    unfold strOcc
    apply occCount_zero_of_sub
      (show (['d', '_'] : List Char) <+:
        ("-S clipped_frac:" : String).data.drop 9 by decide)
      (by decide)
    have hsplit : leviosam2_cmd st clft fn_input mapq score frac isize (some x)
        gap bedc bedd rcfg =
        (st.time_cmd ++ " " ++ st.leviosam2_binary ++ " lift -C " ++ clft ++
          " -a " ++ fn_input ++ " -p " ++ st.path_out_pfx ++ " -t " ++
          intRepr st.num_threads ++ " -m -f " ++ st.fn_target_fasta ++ " " ++
          optIntArg "mapq" mapq ++ " " ++ optIntArg "aln_score" score ++
          " " ++ optFracArg frac ++ " ") ++
        (("-S hdist:" ++ intRepr x) ++
          (" " ++ optIntArg "isize" isize ++ " " ++ optGapArg gap ++ " " ++
            optStrArg "-r" bedc ++ " " ++ optStrArg "-D" bedd ++ " " ++
            optStrArg "-x" rcfg)) := by
      rw [leviosam2_cmd]
      rw [show optIntArg "hdist" (some x) = "-S hdist:" ++ intRepr x by
        rw [optIntArg, if_neg hxne]; rfl]
      simp only [String.append_assoc]
    rw [hsplit, String.data_append, String.data_append]
    have hdint : ('d' : Char) ∉ (intRepr x).data :=
      not_mem_intRepr (by decide) (by decide) x
    have hcu : ∀ j, ("-S hdist:" ++ intRepr x).data[j]? = some 'd' →
        j = 4 := by
      intro j hj
      rw [String.data_append] at hj
      exact unique_in_append (by decide) hdint j hj
    have hb : ("-S hdist:" ++ intRepr x).data[4 + 1]? = some 'i' := by
      rw [String.data_append, List.getElem?_append, if_pos (by decide)]
      decide
    apply occCount_two_zero hcu hb (by decide)
    · rw [optFracArg_eq_empty hf]
      repeat' apply not_mem_str_append
      all_goals first
        | exact cleanStr_not_mem c1 (by decide)
        | exact cleanStr_not_mem c2 (by decide)
        | exact cleanStr_not_mem c3 (by decide)
        | exact cleanStr_not_mem c4 (by decide)
        | exact cleanStr_not_mem c5 (by decide)
        | exact cleanStr_not_mem c6 (by decide)
        | exact not_mem_intRepr (by decide) (by decide) _
        | exact not_mem_optIntArg (by decide) (by decide) (by decide)
            (by decide) (by decide) _
        | decide
    · repeat' apply not_mem_str_append
      all_goals first
        | exact not_mem_optIntArg (by decide) (by decide) (by decide)
            (by decide) (by decide) _
        | exact not_mem_optGapArg (by decide) (by decide) (by decide) _
        | exact not_mem_optStrArg (by decide) (by decide)
            (cleanStr_not_mem c7 (by decide))
        | exact not_mem_optStrArg (by decide) (by decide)
            (cleanStr_not_mem c8 (by decide))
        | exact not_mem_optStrArg (by decide) (by decide)
            (cleanStr_not_mem c9 (by decide))
        | decide

theorem dryRunLaw_leviosam2 (st : Wf) (hdry : st.dryrun = true)
    (clft fn_input : String) (mapq score : Option Int) (frac : Option ℚ)
    (isize hdist gap : Option Int) (bedc bedd rcfg : String) (fs fs2 : FS) :
    DryRunLaw
      (run_leviosam2 st clft fn_input mapq score frac isize hdist gap
        bedc bedd rcfg fs)
      (run_leviosam2 { st with dryrun := false } clft fn_input mapq score
        frac isize hdist gap bedc bedd rcfg fs2) := by
  refine ⟨?_, ?_, ?_⟩
  · simp [run_leviosam2, hdry]
  · simp [run_leviosam2, hdry]
  · intro c hc
    simp only [run_leviosam2] at hc
    split_ifs at hc <;> simp_all [run_leviosam2, hdry] <;> rfl

theorem dryRunLaw_sort_committed (st : Wf) (hdry : st.dryrun = true)
    (fs fs2 : FS) :
    DryRunLaw (run_sort_committed st fs)
      (run_sort_committed { st with dryrun := false } fs2) := by
  refine ⟨?_, ?_, ?_⟩
  · simp [run_sort_committed, hdry]
  · simp [run_sort_committed, hdry]
  · intro c hc
    simp only [run_sort_committed] at hc
    split_ifs at hc <;> simp_all [run_sort_committed, hdry] <;> rfl

theorem dryRunLaw_collate_pe (st : Wf) (hdry : st.dryrun = true)
    (fs fs2 : FS) :
    DryRunLaw (run_collate_pe st fs)
      (run_collate_pe { st with dryrun := false } fs2) := by
  refine ⟨?_, ?_, ?_⟩
  · simp [run_collate_pe, hdry]
  · simp [run_collate_pe, hdry]
  · intro c hc
    simp only [run_collate_pe] at hc
    split_ifs at hc <;> simp_all [run_collate_pe, hdry] <;> rfl

theorem dryRunLaw_realign_deferred (st : Wf) (hdry : st.dryrun = true)
    (tfi rg : String) (fs fs2 : FS) :
    DryRunLaw (run_realign_deferred st tfi rg fs)
      (run_realign_deferred { st with dryrun := false } tfi rg fs2) := by
  have hcmd : realign_cmd { st with dryrun := false } tfi rg =
      realign_cmd st tfi rg := rfl
  refine ⟨?_, ?_, ?_⟩
  · cases hrc : realign_cmd st tfi rg <;>
      simp only [run_realign_deferred, hrc] <;>
        split_ifs <;> simp [hdry]
  · cases hrc : realign_cmd st tfi rg <;>
      simp only [run_realign_deferred, hrc] <;>
        split_ifs <;> simp [hdry]
  · intro c hc
    cases hrc : realign_cmd st tfi rg with
    | none =>
      simp only [run_realign_deferred, hcmd, hrc] at hc ⊢
      split_ifs at hc <;> simp_all
    | some cm =>
      simp only [run_realign_deferred, hcmd, hrc] at hc ⊢
      split_ifs at hc <;> simp_all [hdry] <;>
        first
          | rfl
          | (rw [if_neg (by tauto)]; try simp_all)

theorem dryRunLaw_refflow_merge_pe (st : Wf) (hdry : st.dryrun = true)
    (source_label target_label : String) (fs fs2 : FS) :
    DryRunLaw (run_refflow_merge_pe st source_label target_label fs)
      (run_refflow_merge_pe { st with dryrun := false } source_label
        target_label fs2) := by
  refine ⟨?_, ?_, ?_⟩
  · simp [run_refflow_merge_pe, hdry]
  · simp [run_refflow_merge_pe, hdry]
  · intro c hc
    simp only [run_refflow_merge_pe] at hc
    split_ifs at hc <;> simp_all [run_refflow_merge_pe, hdry] <;> rfl

theorem dryRunLaw_merge_and_index (st : Wf) (hdry : st.dryrun = true)
    (fs fs2 : FS) :
    DryRunLaw (run_merge_and_index st fs)
      (run_merge_and_index { st with dryrun := false } fs2) := by
  refine ⟨?_, ?_, ?_⟩
  · simp [run_merge_and_index, hdry]
  · simp [run_merge_and_index, hdry]
  · intro c hc
    simp only [run_merge_and_index] at hc
    split_ifs at hc <;> simp_all [run_merge_and_index, hdry] <;> rfl

theorem dryRunLaw_bam_to_fastq_se (st : Wf) (hdry : st.dryrun = true)
    (fs fs2 : FS) :
    DryRunLaw (run_bam_to_fastq_se st fs)
      (run_bam_to_fastq_se { st with dryrun := false } fs2) := by
  refine ⟨?_, ?_, ?_⟩
  · simp [run_bam_to_fastq_se, hdry]
  · simp [run_bam_to_fastq_se, hdry]
  · intro c hc
    simp only [run_bam_to_fastq_se] at hc
    split_ifs at hc <;> simp_all [run_bam_to_fastq_se, hdry] <;> rfl

/-! ## Claim theorems -/

/-- C1: for every way the module can be loaded (as a script or imported),
executing `_run_workflow` raises an unbound-name error while evaluating the
arguments of its first statement — before the first stage
(`run_leviosam2`) could be dispatched — so no pipeline run through the
entry point `run_workflow` / `Leviosam2Workflow.__init__` ever completes a
stage.  Run as a script the unbound name is `fn_input_alignment`; imported,
it is `args`. -/
theorem c1_run_workflow_unbound_name :
    (∀ runAsMain : Bool, (runWorkflowBody runAsMain).isOk = false) ∧
    runWorkflowBody true = .error (.nameError "fn_input_alignment") ∧
    runWorkflowBody false = .error (.nameError "args") := by
  refine ⟨?_, rfl, rfl⟩
  intro b
  cases b <;> rfl

/-- C9 counterexample: a probe that exits with status zero but prints at
most one line fails strict validation, refuting "in strict mode validation
succeeds if and only if the probe exits zero". -/
theorem c9_counterexample :
    validate_binary false 0 "ok\n" "" =
      .error (.unexpectedOutput "ok\n" "") ∧ (0 : Int) = 0 :=
  ⟨rfl, rfl⟩

/-- C9 (amended): strict validation succeeds iff the exit status is zero
AND stdout or stderr holds more than one newline; lenient validation
succeeds iff stdout or stderr holds more than one newline, regardless of
the exit status.  The strict nonzero-exit error carries only the return
code; the output-shape error carries the captured output. -/
theorem c9_validate_binary_amended (rc : Int) (stdout stderr : String) :
    (validate_binary false rc stdout stderr = .ok () ↔
      rc = 0 ∧ (count_lines stdout > 1 ∨ count_lines stderr > 1)) ∧
    (validate_binary true rc stdout stderr = .ok () ↔
      (count_lines stdout > 1 ∨ count_lines stderr > 1)) ∧
    (validate_binary false rc stdout stderr =
      .error (.nonZeroReturn rc) ↔ rc ≠ 0) ∧
    (validate_binary true rc stdout stderr =
      .error (.unexpectedOutput stdout stderr) ↔
      ¬(count_lines stdout > 1 ∨ count_lines stderr > 1)) := by
  unfold validate_binary
  by_cases h1 : rc = 0 <;>
    by_cases h2 : count_lines stdout > 1 ∨ count_lines stderr > 1 <;>
      simp [h1, h2]

/-- C10: for every output prefix, the deferred-FASTQ paths whose existence
the collate stage checks differ from the FASTQ input paths the paired-end
realignment stage requires, for both read 1 and read 2. -/
theorem c10_collate_realign_path_mismatch (st : Wf) :
    (collate_fn_out_fq1 st == realign_fn_in_fq1 st) = false ∧
    (collate_fn_out_fq2 st == realign_fn_in_fq2 st) = false := by
  constructor
  · rw [beq_eq_false_iff_ne]
    intro h
    have hl := congrArg String.length h
    have h18 : ("-deferred-R1.fq.gz" : String).length = 18 := rfl
    have h25 : ("-paired-deferred-R1.fq.gz" : String).length = 25 := rfl
    rw [collate_fn_out_fq1, realign_fn_in_fq1, String.length_append,
      String.length_append, h18, h25] at hl
    omega
  · rw [beq_eq_false_iff_ne]
    intro h
    have hl := congrArg String.length h
    have h18 : ("-deferred-R2.fq.gz" : String).length = 18 := rfl
    have h25 : ("-paired-deferred-R2.fq.gz" : String).length = 25 := rfl
    rw [collate_fn_out_fq2, realign_fn_in_fq2, String.length_append,
      String.length_append, h18, h25] at hl
    omega

/-- C2 counterexample: with aligner minimap2 and layout `ilmn_pe` in execute
mode, no configuration rejection precedes the stages: on a filesystem where
their inputs exist, the lift, sort-committed and collate stages all spawn
their commands, and the rejection is only raised by `run_realign_deferred`,
the stage after collate in the pipeline order. -/
theorem c2_counterexample :
    ((run_leviosam2
        { baseSt with aligner := "minimap2", aligner_binary := "minimap2" }
        "x.clft" "in.bam" none none none none none none "" "" ""
        ["in.bam", "test-committed.bam", "test-committed-sorted.bam",
         "test-deferred.bam"]).1.isProc = true) ∧
    ((run_sort_committed
        { baseSt with aligner := "minimap2", aligner_binary := "minimap2" }
        ["in.bam", "test-committed.bam", "test-committed-sorted.bam",
         "test-deferred.bam"]).1.isProc = true) ∧
    ((run_collate_pe
        { baseSt with aligner := "minimap2", aligner_binary := "minimap2" }
        ["in.bam", "test-committed.bam", "test-committed-sorted.bam",
         "test-deferred.bam"]).1.isProc = true) ∧
    (run_realign_deferred
        { baseSt with aligner := "minimap2", aligner_binary := "minimap2" }
        "idx" ""
        ["in.bam", "test-committed.bam", "test-committed-sorted.bam",
         "test-deferred.bam"] =
      (.raised (.valueError
        "We have not supported paired-end mode for aligner minimap2"), [])) := by
  refine ⟨rfl, rfl, rfl, rfl⟩

/-- C2 (amended): with aligner minimap2 or winnowmap2 and a paired-end
layout, `run_realign_deferred` raises the unsupported-aligner `ValueError`
before spawning anything or touching the filesystem — but this rejection
lives in the realign stage, which follows lift, sort-committed and collate
in the pipeline order; no earlier check rejects the combination. -/
theorem c2_minimap2_paired_rejection (st : Wf) (tfi rg : String) (fs : FS)
    (ha : st.aligner = "minimap2" ∨ st.aligner = "winnowmap2")
    (hp : st.is_single_end = false) :
    run_realign_deferred st tfi rg fs =
      (.raised (.valueError
        ("We have not supported paired-end mode for aligner " ++ st.aligner)),
       []) := by
  rcases ha with h | h <;> simp [run_realign_deferred, hp, h]

theorem c2_minimap2_paired_rejection_witness :
    run_realign_deferred
      { baseSt with aligner := "winnowmap2", aligner_binary := "winnowmap2" }
      "idx" "" [] =
    (.raised (.valueError
      ("We have not supported paired-end mode for aligner " ++ "winnowmap2")),
     []) :=
  c2_minimap2_paired_rejection _ "idx" "" [] (Or.inr rfl) rfl

/-- C4: in execute mode with all declared inputs and outputs of the
single-end realignment stage on disk, the stage does not return a skip
outcome: it raises an unbound-name error on `fn_in_fq1` (a local only
assigned in the paired-end branch), with the force-run flag both unset and
set. -/
theorem c4_single_end_realign_skip_bug :
    (run_realign_deferred
      { baseSt with sequence_type := "ilmn_se", forcerun := false }
      "idx.bt2" "" ["test-deferred.fq.gz", "test-realigned.bam"] =
      (.raised (.nameError "fn_in_fq1"), [])) ∧
    (run_realign_deferred { baseSt with sequence_type := "ilmn_se" }
      "idx.bt2" "" ["test-deferred.fq.gz", "test-realigned.bam"] =
      (.raised (.nameError "fn_in_fq1"), [])) :=
  ⟨rfl, rfl⟩

/-- C6: for the single-end realignment with 4 total threads, the computed
sort thread count is max(1, 4 // 5) = 1 and the alignment thread count is
max(1, 4 - 1) = 3; the aligner receives `-p 3`, but the piped
`samtools sort` receives `-@ 3` — the alignment thread count — instead of
the sort thread count 1, contradicting the thread-splitting law and the
method's own docstring. -/
theorem c6_thread_split_sort_bug :
    num_threads_sort { baseSt with sequence_type := "ilmn_se" } = 1 ∧
    num_threads_aln_se { baseSt with sequence_type := "ilmn_se" } = 3 ∧
    containsSub " -p 3 "
      ((realign_cmd { baseSt with sequence_type := "ilmn_se" } "idx.bt2"
        "").getD "") = true ∧
    containsSub " sort -@ 3 "
      ((realign_cmd { baseSt with sequence_type := "ilmn_se" } "idx.bt2"
        "").getD "") = true ∧
    containsSub " sort -@ 1"
      ((realign_cmd { baseSt with sequence_type := "ilmn_se" } "idx.bt2"
        "").getD "") = false := by
  refine ⟨rfl, rfl, by decide, by decide, by decide⟩

/-- C7: for a minimap2 realignment command the flags `-a` and `--MD` are
always present, and `-x map-ont` appears for the ONT layout; but for the
HiFi layout (CLI value `pb_hifi`) no `-x map-hifi` preset appears, because
the source compares the sequence type against `'pb-hifi'` (hyphen), which
the CLI can never produce.  No preset appears for other layouts either. -/
theorem c7_minimap2_preset_bug :
    containsSub " -a "
      ((realign_cmd { baseSt with aligner := "minimap2", aligner_binary := "minimap2", sequence_type := "pb_hifi" } "idx" "").getD "") = true ∧
    containsSub " --MD "
      ((realign_cmd { baseSt with aligner := "minimap2", aligner_binary := "minimap2", sequence_type := "pb_hifi" } "idx" "").getD "") = true ∧
    containsSub "-x map-hifi"
      ((realign_cmd { baseSt with aligner := "minimap2", aligner_binary := "minimap2", sequence_type := "pb_hifi" } "idx" "").getD "") = false ∧
    containsSub "-x map-ont"
      ((realign_cmd { baseSt with aligner := "minimap2", aligner_binary := "minimap2", sequence_type := "ont" } "idx" "").getD "") = true ∧
    containsSub "-x map-"
      ((realign_cmd { baseSt with aligner := "minimap2", aligner_binary := "minimap2", sequence_type := "ilmn_se" } "idx" "").getD "") = false := by
  refine ⟨by decide, by decide, by decide, by decide, by decide⟩

/-- C8: the bowtie2 realignment command carries the index via `-x` and the
thread flag `-p`, but the read arguments are the verbatim placeholder text
`-1 {fn_in_fq1} -2 {fn_in_fq2}` (paired) and `-U {fn_in_fq}` (single),
because the source assigns them from non-f-string literals; the derived
FASTQ paths never appear in the command. -/
theorem c8_bowtie2_reads_placeholder_bug :
    containsSub "-1 \x7bfn_in_fq1\x7d -2 \x7bfn_in_fq2\x7d"
      ((realign_cmd baseSt "idx.bt2" "").getD "") = true ∧
    containsSub "test-paired-deferred-R1.fq.gz"
      ((realign_cmd baseSt "idx.bt2" "").getD "") = false ∧
    containsSub "-x idx.bt2"
      ((realign_cmd baseSt "idx.bt2" "").getD "") = true ∧
    containsSub " -p "
      ((realign_cmd baseSt "idx.bt2" "").getD "") = true ∧
    containsSub "-U \x7bfn_in_fq\x7d"
      ((realign_cmd { baseSt with sequence_type := "ilmn_se" } "idx.bt2" "").getD "") = true ∧
    containsSub "test-deferred.fq.gz"
      ((realign_cmd { baseSt with sequence_type := "ilmn_se" } "idx.bt2" "").getD "") = false := by
  refine ⟨by decide, by decide, by decide, by decide, by decide, by decide⟩


/-- C3: with the dry-run flag set, every stage performs no filesystem
existence checks and spawns no process (its effect list is empty), never
raises a missing-input error, and whenever the same stage in execute mode —
on any filesystem — spawns a command, that command is exactly the dry run's
returned command string. -/
theorem c3_dry_run_law (st : Wf) (hdry : st.dryrun = true)
    (clft fn_input : String) (mapq score : Option Int) (frac : Option ℚ)
    (isize hdist gap : Option Int) (bedc bedd rcfg : String)
    (tfi rg source_label target_label : String) (fs fs2 : FS) :
    DryRunLaw
      (run_leviosam2 st clft fn_input mapq score frac isize hdist gap
        bedc bedd rcfg fs)
      (run_leviosam2 { st with dryrun := false } clft fn_input mapq score
        frac isize hdist gap bedc bedd rcfg fs2) ∧
    DryRunLaw (run_sort_committed st fs)
      (run_sort_committed { st with dryrun := false } fs2) ∧
    DryRunLaw (run_collate_pe st fs)
      (run_collate_pe { st with dryrun := false } fs2) ∧
    DryRunLaw (run_realign_deferred st tfi rg fs)
      (run_realign_deferred { st with dryrun := false } tfi rg fs2) ∧
    DryRunLaw (run_refflow_merge_pe st source_label target_label fs)
      (run_refflow_merge_pe { st with dryrun := false } source_label
        target_label fs2) ∧
    DryRunLaw (run_merge_and_index st fs)
      (run_merge_and_index { st with dryrun := false } fs2) ∧
    DryRunLaw (run_bam_to_fastq_se st fs)
      (run_bam_to_fastq_se { st with dryrun := false } fs2) :=
  ⟨dryRunLaw_leviosam2 st hdry clft fn_input mapq score frac isize hdist gap
      bedc bedd rcfg fs fs2,
    dryRunLaw_sort_committed st hdry fs fs2,
    dryRunLaw_collate_pe st hdry fs fs2,
    dryRunLaw_realign_deferred st hdry tfi rg fs fs2,
    dryRunLaw_refflow_merge_pe st hdry source_label target_label fs fs2,
    dryRunLaw_merge_and_index st hdry fs fs2,
    dryRunLaw_bam_to_fastq_se st hdry fs fs2⟩

theorem c3_witness :
    DryRunLaw
      (run_sort_committed { baseSt with dryrun := true }
        ["test-committed.bam"])
      (run_sort_committed
        { { baseSt with dryrun := true } with dryrun := false }
        ["test-committed.bam"]) :=
  (c3_dry_run_law { baseSt with dryrun := true } rfl "x.clft" "in.bam"
    none none none none none none "" "" "" "idx" "" "s" "t"
    ["test-committed.bam"] ["test-committed.bam"]).2.1

/-- C5 counterexample: supplying the mapq threshold with value 0 yields a
lift command with no `-S mapq:` flag at all — zero occurrences, not
exactly one — because the source tests Python truthiness, under which 0 is
treated like an absent value. -/
theorem c5_counterexample :
    strOcc "-S mapq:"
      (leviosam2_cmd cleanSt "x.clft" "in.bam" (some 0) none none none none
        none "" "" "") = 0 := by
  decide

/-- C5 (amended): for every optional lift-commit threshold parameter,
omitting the parameter — and likewise supplying the value 0, which Python
truthiness treats like an omitted value — yields a lift command string with
no corresponding `-S` flag; supplying a non-zero value yields exactly one
occurrence of `-S <key>:<value>` with the configured value.  Proved under
the hygiene condition that the free-form configuration strings do not
contain flag-identifying characters. -/
theorem c5_lift_commit_flag_rendering (st : Wf) (clft fn_input : String)
    (mapq score : Option Int) (frac : Option ℚ) (isize hdist gap : Option Int)
    (bedc bedd rcfg : String) (cmd : String)
    (c1 : cleanStr st.time_cmd) (c2 : cleanStr st.leviosam2_binary)
    (c3 : cleanStr clft) (c4 : cleanStr fn_input)
    (c5 : cleanStr st.path_out_pfx) (c6 : cleanStr st.fn_target_fasta)
    (c7 : cleanStr bedc) (c8 : cleanStr bedd) (c9 : cleanStr rcfg)
    (hcmd : cmd = leviosam2_cmd st clft fn_input mapq score frac isize hdist
      gap bedc bedd rcfg) :
    ((mapq.getD 0 = 0 → strOcc "-S mapq:" cmd = 0) ∧
      ∀ v : Int, mapq = some v → v ≠ 0 →
        strOcc ("-S mapq:" ++ intRepr v) cmd = 1) ∧
    ((score.getD 0 = 0 → strOcc "-S aln_score:" cmd = 0) ∧
      ∀ v : Int, score = some v → v ≠ 0 →
        strOcc ("-S aln_score:" ++ intRepr v) cmd = 1) ∧
    ((frac.getD 0 = 0 → strOcc "-S clipped_frac:" cmd = 0) ∧
      ∀ v : ℚ, frac = some v → v ≠ 0 →
        strOcc ("-S clipped_frac:" ++ pyFloatRepr v) cmd = 1) ∧
    ((isize.getD 0 = 0 → strOcc "-S isize:" cmd = 0) ∧
      ∀ v : Int, isize = some v → v ≠ 0 →
        strOcc ("-S isize:" ++ intRepr v) cmd = 1) ∧
    ((hdist.getD 0 = 0 → strOcc "-S hdist:" cmd = 0) ∧
      ∀ v : Int, hdist = some v → v ≠ 0 →
        strOcc ("-S hdist:" ++ intRepr v) cmd = 1) := by
  subst hcmd
  refine ⟨⟨fun h => lift_cmd_mapq_zero st clft fn_input mapq score frac isize
      hdist gap bedc bedd rcfg h c1 c2 c3 c4 c5 c6 c7 c8 c9,
    fun v hv hvne => by
      subst hv
      exact lift_cmd_mapq_one st clft fn_input v score frac isize hdist gap
        bedc bedd rcfg hvne c1 c2 c3 c4 c5 c6 c7 c8 c9⟩,
    ⟨fun h => lift_cmd_score_zero st clft fn_input mapq score frac isize
      hdist gap bedc bedd rcfg h c1 c2 c3 c4 c5 c6 c7 c8 c9,
    fun v hv hvne => by
      subst hv
      exact lift_cmd_score_one st clft fn_input v mapq frac isize hdist gap
        bedc bedd rcfg hvne c1 c2 c3 c4 c5 c6 c7 c8 c9⟩,
    ⟨fun h => lift_cmd_frac_zero st clft fn_input mapq score frac isize
      hdist gap bedc bedd rcfg h c1 c2 c3 c4 c5 c6 c7 c8 c9,
    fun v hv hvne => by
      subst hv
      exact lift_cmd_frac_one st clft fn_input v mapq score isize hdist gap
        bedc bedd rcfg hvne c1 c2 c3 c4 c5 c6 c7 c8 c9⟩,
    ⟨fun h => lift_cmd_isize_zero st clft fn_input mapq score frac isize
      hdist gap bedc bedd rcfg h c1 c2 c3 c4 c5 c6 c7 c8 c9,
    fun v hv hvne => by
      subst hv
      exact lift_cmd_isize_one st clft fn_input v mapq score frac hdist gap
        bedc bedd rcfg hvne c1 c2 c3 c4 c5 c6 c7 c8 c9⟩,
    ⟨fun h => lift_cmd_hdist_zero st clft fn_input mapq score frac isize
      hdist gap bedc bedd rcfg h c1 c2 c3 c4 c5 c6 c7 c8 c9,
    fun v hv hvne => by
      subst hv
      exact lift_cmd_hdist_one st clft fn_input v mapq score frac isize gap
        bedc bedd rcfg hvne c1 c2 c3 c4 c5 c6 c7 c8 c9⟩⟩

/-- Witness for C5 at a concrete configuration: supplying mapq 30 yields
exactly one `-S mapq:30` flag, and the omitted hdist parameter contributes
no `-S hdist:` flag. -/
theorem c5_witness :
    strOcc ("-S mapq:" ++ intRepr 30)
      (leviosam2_cmd cleanSt "x.clft" "in.bam" (some 30) none none none none
        none "" "" "") = 1 ∧
    strOcc "-S hdist:"
      (leviosam2_cmd cleanSt "x.clft" "in.bam" (some 30) none none none none
        none "" "" "") = 0 := by
  have h := c5_lift_commit_flag_rendering cleanSt "x.clft" "in.bam" (some 30)
    none none none none none "" "" "" _ (by decide) (by decide) (by decide)
    (by decide) (by decide) (by decide) (by decide) (by decide) (by decide)
    rfl
  exact ⟨h.1.2 30 rfl (by decide), h.2.2.2.2.1 (by decide)⟩

end Leviosam2
